import Mathlib

/-!
Verification of the plant-evolution simulation core (Rust sources under
src/). The Rust code is shallowly embedded: f32 scalars are modelled as
exact rationals (ℚ), the `rand` stream is modelled as an explicit stream
of rationals in [0,1) consumed left to right, and the bevy ECS systems
are modelled as explicit per-plant state-transition functions. Machine
floating point rounding is not modelled; all arithmetic claims are read
over exact rationals.
-/

set_option linter.unusedVariables false

/-! ## Configuration constants (src/config.rs) -/

def WORLD_WIDTH : Nat := 64
def WORLD_HEIGHT : Nat := 64
def WORLD_DEPTH : Nat := 64
def INITIAL_SEED_COUNT : Nat := 10
def SUNLIGHT_MAX : ℚ := 100
def SOIL_NUTRIENT_MAX : ℚ := 100
def SOIL_WATER_MAX : ℚ := 100
def NUTRIENT_REGEN_RATE : ℚ := 1/10
def WATER_REGEN_RATE : ℚ := 2/10
def BASE_GROWTH_COST : ℚ := 10
def BASE_MAINTENANCE_COST : ℚ := 3/10
def PHOTOSYNTHESIS_EFFICIENCY : ℚ := 1/2
def ROOT_ABSORPTION_RATE : ℚ := 1
def REPRODUCTION_ENERGY_COST : ℚ := 50
def SEED_DISPERSAL_RANGE : Int := 5
def MUTATION_RATE : ℚ := 5/100
def MUTATION_STRENGTH : ℚ := 1/10

/-! ## Random stream model

The Rust code draws from `rand::rng()`. We model the generator as an
infinite stream of rationals in [0,1) together with a cursor; every
`rng.random::<f32>()` call consumes one stream element. A probabilistic
statement "happens with probability p" is read as "happens exactly when
the decision roll consumed for it is < p", which is the uniform-roll
reading of the source. -/

structure Rng where
  stream : Nat → ℚ
  idx : Nat

def Rng.next (r : Rng) : ℚ × Rng :=
  (r.stream r.idx, ⟨r.stream, r.idx + 1⟩)

/-- Model of Rust `rng.random_range(lo..=hi)` on integers: scale the unit
roll to the inclusive range and truncate. -/
def rollRange (roll : ℚ) (lo hi : Int) : Int :=
  lo + ⌊roll * ((hi - lo + 1 : Int) : ℚ)⌋

/-- Model of `SliceRandom::choose`: pick the element indexed by the unit
roll scaled to the list length (`none` for an empty list, as in rand). -/
def chooseFrom {α : Type} (l : List α) (roll : ℚ) : Option α :=
  l[(⌊roll * (l.length : ℚ)⌋).toNat]?

/-! ## Genes and genomes (src/plant/genetics.rs) -/

/-- Individual gene controlling one plant trait (genetics.rs `Gene`);
`value` is the normalized scalar, clamped to [0,1] at construction. -/
structure Gene where
  value : ℚ
deriving DecidableEq

/-- Rust `f32::clamp(lo, hi)` over exact rationals. -/
def clampQ (x lo hi : ℚ) : ℚ := min (max x lo) hi

/-- genetics.rs `Gene::new`: clamp the value into [0,1]. -/
def Gene.new (v : ℚ) : Gene := ⟨clampQ v 0 1⟩

/-- genetics.rs `Gene::mutate`: with probability `MUTATION_RATE` add a
uniform offset in [-MUTATION_STRENGTH, +MUTATION_STRENGTH] and clamp
back into [0,1]; consumes one roll, plus a second roll when mutating. -/
def Gene.mutate (g : Gene) (r : Rng) : Gene × Rng :=
  let (roll, r1) := r.next
  if roll < MUTATION_RATE then
    let (off, r2) := r1.next
    let change := (off - 1/2) * MUTATION_STRENGTH * 2
    (⟨clampQ (g.value + change) 0 1⟩, r2)
  else
    (g, r1)

/-- Complete genome (genetics.rs `Genome`): nine named genes. -/
structure Genome where
  growth_rate : Gene
  max_height : Gene
  leaf_density : Gene
  root_depth : Gene
  branching_frequency : Gene
  photosynthesis_efficiency : Gene
  reproduction_threshold : Gene
  mutation_rate : Gene
  horizontal_growth_tendency : Gene
deriving DecidableEq

/-- genetics.rs `Genome::reproduce`: clone the genome, mutate the eight
ordinary genes via `Gene::mutate`, then — guarded by an extra roll
against `MUTATION_RATE * 0.5` — call `Gene::mutate` (which rolls its own
`MUTATION_RATE` coin again) on the mutation-rate gene. -/
def Genome.reproduce (g : Genome) (r : Rng) : Genome × Rng :=
  let (g1, r1) := g.growth_rate.mutate r
  let (g2, r2) := g.max_height.mutate r1
  let (g3, r3) := g.leaf_density.mutate r2
  let (g4, r4) := g.root_depth.mutate r3
  let (g5, r5) := g.branching_frequency.mutate r4
  let (g6, r6) := g.photosynthesis_efficiency.mutate r5
  let (g7, r7) := g.reproduction_threshold.mutate r6
  let (g8, r8) := g.horizontal_growth_tendency.mutate r7
  let (roll, r9) := r8.next
  let (g9, r10) :=
    if roll < MUTATION_RATE * (1/2) then g.mutation_rate.mutate r9
    else (g.mutation_rate, r9)
  ({ growth_rate := g1, max_height := g2, leaf_density := g3, root_depth := g4,
     branching_frequency := g5, photosynthesis_efficiency := g6,
     reproduction_threshold := g7, horizontal_growth_tendency := g8,
     mutation_rate := g9 }, r10)

/-- genetics.rs `Genome::distance`: sum of absolute per-gene differences
over the nine genes, divided by 9. -/
def Genome.distance (a b : Genome) : ℚ :=
  (|a.growth_rate.value - b.growth_rate.value|
    + |a.max_height.value - b.max_height.value|
    + |a.leaf_density.value - b.leaf_density.value|
    + |a.root_depth.value - b.root_depth.value|
    + |a.branching_frequency.value - b.branching_frequency.value|
    + |a.photosynthesis_efficiency.value - b.photosynthesis_efficiency.value|
    + |a.reproduction_threshold.value - b.reproduction_threshold.value|
    + |a.mutation_rate.value - b.mutation_rate.value|
    + |a.horizontal_growth_tendency.value - b.horizontal_growth_tendency.value|)
  / 9

/-- genetics.rs derived accessor `get_growth_rate`: 0.1 to 2.0. -/
def Genome.get_growth_rate (g : Genome) : ℚ := 1/10 + g.growth_rate.value * (19/10)

/-- genetics.rs derived accessor `get_max_height` (`as i32` truncates). -/
def Genome.get_max_height (g : Genome) : Int := ⌊5 + g.max_height.value * 45⌋

/-- genetics.rs derived accessor `get_leaf_density`: 0.1 to 1.0. -/
def Genome.get_leaf_density (g : Genome) : ℚ := 1/10 + g.leaf_density.value * (9/10)

/-- genetics.rs derived accessor `get_root_depth` (`as i32` truncates). -/
def Genome.get_root_depth (g : Genome) : Int := ⌊1 + g.root_depth.value * 19⌋

/-- genetics.rs derived accessor `get_branching_frequency`: 0.01 to 0.3. -/
def Genome.get_branching_frequency (g : Genome) : ℚ :=
  1/100 + g.branching_frequency.value * (29/100)

/-- genetics.rs derived accessor `get_photosynthesis_efficiency`. -/
def Genome.get_photosynthesis_efficiency (g : Genome) : ℚ :=
  3/10 + g.photosynthesis_efficiency.value * (12/10)

/-- genetics.rs derived accessor `get_reproduction_threshold`: 50 to 500. -/
def Genome.get_reproduction_threshold (g : Genome) : ℚ :=
  50 + g.reproduction_threshold.value * 450

/-- genetics.rs `GeneticLineage` component. -/
structure GeneticLineage where
  generation : Nat
  parent_id : Option Nat
  species_id : Nat
deriving DecidableEq

/-! ## Claim-side mutation model (spec wording for C3)

`mutateGeneAt p` is the spec's description of "perturbed with
probability p by a uniform random offset in [-MUTATION_STRENGTH,
+MUTATION_STRENGTH] clamped back into [0,1]": one decision roll against
`p`, then the offset roll. It is compared against the source's
`Genome.reproduce` above. -/

/-- Modelled from the spec: a single gene perturbation that fires with
probability `p` (decision roll < p) and applies the clamped uniform
offset. For `p = MUTATION_RATE` this coincides with `Gene.mutate`. -/
def mutateGeneAt (p : ℚ) (g : Gene) (r : Rng) : Gene × Rng :=
  let (roll, r1) := r.next
  if roll < p then
    let (off, r2) := r1.next
    let change := (off - 1/2) * MUTATION_STRENGTH * 2
    (⟨clampQ (g.value + change) 0 1⟩, r2)
  else
    (g, r1)

/-- Modelled from the spec sentence for C3: every ordinary gene is
perturbed with probability `MUTATION_RATE`, and the mutation-rate gene
is perturbed with probability `MUTATION_RATE / 2` (exactly half), each
perturbation being a single clamped uniform offset. -/
def claimReproduceHalf (g : Genome) (r : Rng) : Genome × Rng :=
  let (g1, r1) := mutateGeneAt MUTATION_RATE g.growth_rate r
  let (g2, r2) := mutateGeneAt MUTATION_RATE g.max_height r1
  let (g3, r3) := mutateGeneAt MUTATION_RATE g.leaf_density r2
  let (g4, r4) := mutateGeneAt MUTATION_RATE g.root_depth r3
  let (g5, r5) := mutateGeneAt MUTATION_RATE g.branching_frequency r4
  let (g6, r6) := mutateGeneAt MUTATION_RATE g.photosynthesis_efficiency r5
  let (g7, r7) := mutateGeneAt MUTATION_RATE g.reproduction_threshold r6
  let (g8, r8) := mutateGeneAt MUTATION_RATE g.horizontal_growth_tendency r7
  let (g9, r9) := mutateGeneAt (MUTATION_RATE * (1/2)) g.mutation_rate r8
  ({ growth_rate := g1, max_height := g2, leaf_density := g3, root_depth := g4,
     branching_frequency := g5, photosynthesis_efficiency := g6,
     reproduction_threshold := g7, horizontal_growth_tendency := g8,
     mutation_rate := g9 }, r9)

/-- Amended reading of C3: the mutation-rate gene is only handed to the
standard `MUTATION_RATE` perturbation when an outer coin of probability
`MUTATION_RATE * 0.5` succeeds first, so both coins must succeed for any
change. -/
def claimReproduceAmended (g : Genome) (r : Rng) : Genome × Rng :=
  let (g1, r1) := mutateGeneAt MUTATION_RATE g.growth_rate r
  let (g2, r2) := mutateGeneAt MUTATION_RATE g.max_height r1
  let (g3, r3) := mutateGeneAt MUTATION_RATE g.leaf_density r2
  let (g4, r4) := mutateGeneAt MUTATION_RATE g.root_depth r3
  let (g5, r5) := mutateGeneAt MUTATION_RATE g.branching_frequency r4
  let (g6, r6) := mutateGeneAt MUTATION_RATE g.photosynthesis_efficiency r5
  let (g7, r7) := mutateGeneAt MUTATION_RATE g.reproduction_threshold r6
  let (g8, r8) := mutateGeneAt MUTATION_RATE g.horizontal_growth_tendency r7
  let (roll, r9) := r8.next
  let (g9, r10) :=
    if roll < MUTATION_RATE * (1/2) then mutateGeneAt MUTATION_RATE g.mutation_rate r9
    else (g.mutation_rate, r9)
  ({ growth_rate := g1, max_height := g2, leaf_density := g3, root_depth := g4,
     branching_frequency := g5, photosynthesis_efficiency := g6,
     reproduction_threshold := g7, horizontal_growth_tendency := g8,
     mutation_rate := g9 }, r10)

/-- Uniform genome with all nine gene values set to `v`. -/
def constGenome (v : ℚ) : Genome :=
  ⟨⟨v⟩, ⟨v⟩, ⟨v⟩, ⟨v⟩, ⟨v⟩, ⟨v⟩, ⟨v⟩, ⟨v⟩, ⟨v⟩⟩

/-- Test stream for the C3 counterexample: the eight ordinary genes all
skip mutation (rolls 9/10 ≥ MUTATION_RATE), the ninth roll 1/50 passes
the half-rate guard (1/50 < 1/40), and the tenth roll 9/10 fails
`Gene::mutate`'s inner MUTATION_RATE coin while being a nonzero offset
for the spec's reading. -/
def c3Stream : Nat → ℚ := fun n => if n = 8 then 1/50 else 9/10

def c3Rng : Rng := ⟨c3Stream, 0⟩

/-! ## Voxel world (src/world/voxel.rs) -/

/-- voxel.rs `VoxelType`: material of one grid cell. `PlantMaterial`
carries the owning plant's id and its species id (both `u32`). -/
inductive VoxelType where
  | air : VoxelType
  | soil : VoxelType
  | plantMaterial (plant_id : Nat) (species_id : Nat) : VoxelType
deriving DecidableEq

/-- voxel.rs `VoxelType::is_solid`. -/
def VoxelType.is_solid (t : VoxelType) : Bool :=
  match t with
  | .air => false
  | _ => true

/-- voxel.rs `VoxelType::is_air`. -/
def VoxelType.is_air (t : VoxelType) : Bool :=
  match t with
  | .air => true
  | _ => false

/-- voxel.rs `VoxelType::is_plant`. -/
def VoxelType.is_plant (t : VoxelType) : Bool :=
  match t with
  | .plantMaterial _ _ => true
  | _ => false

/-- voxel.rs `VoxelEnvironment`: per-cell environmental scalars. -/
structure VoxelEnvironment where
  light_level : ℚ
  nutrients : ℚ
  water : ℚ
deriving DecidableEq

/-- voxel.rs `VoxelEnvironment::default`. -/
def VoxelEnvironment.default : VoxelEnvironment :=
  ⟨0, SOIL_NUTRIENT_MAX, SOIL_WATER_MAX⟩

/-- voxel.rs `Voxel`: material type plus environment. -/
structure Voxel where
  voxel_type : VoxelType
  environment : VoxelEnvironment
deriving DecidableEq

/-- voxel.rs `Voxel::default`: air with default environment. -/
def Voxel.default : Voxel := ⟨.air, VoxelEnvironment.default⟩

/-- voxel.rs `VoxelPos`: integer grid coordinate. -/
structure VoxelPos where
  x : Int
  y : Int
  z : Int
deriving DecidableEq

/-- voxel.rs `VoxelPos::new`. -/
def VoxelPos.new (x y z : Int) : VoxelPos := ⟨x, y, z⟩

/-- voxel.rs `VoxelWorld`: dense row-major voxel storage with fixed
dimensions. -/
structure VoxelWorld where
  voxels : List Voxel
  width : Nat
  height : Nat
  depth : Nat

/-- voxel.rs `VoxelWorld::pos_to_index`: `x + z*width + y*width*depth`. -/
def VoxelWorld.pos_to_index (x y z width depth : Nat) : Nat :=
  x + z * width + y * width * depth

/-- voxel.rs `VoxelWorld::is_in_bounds`. -/
def VoxelWorld.is_in_bounds (w : VoxelWorld) (pos : VoxelPos) : Bool :=
  0 ≤ pos.x && 0 ≤ pos.y && 0 ≤ pos.z &&
    pos.x.toNat < w.width && pos.y.toNat < w.height && pos.z.toNat < w.depth

/-- Index of an in-bounds position in the dense storage. -/
def VoxelWorld.idxOf (w : VoxelWorld) (pos : VoxelPos) : Nat :=
  VoxelWorld.pos_to_index pos.x.toNat pos.y.toNat pos.z.toNat w.width w.depth

/-- voxel.rs `VoxelWorld::get`: `None` out of bounds, otherwise the
stored voxel. -/
def VoxelWorld.get (w : VoxelWorld) (pos : VoxelPos) : Option Voxel :=
  if w.is_in_bounds pos then w.voxels[w.idxOf pos]? else none

/-- Embedding of the `get_mut`-and-assign pattern of the source: apply
`f` to the voxel stored at `pos` when the lookup succeeds, else leave
the world unchanged. -/
def VoxelWorld.updateVoxel (w : VoxelWorld) (pos : VoxelPos) (f : Voxel → Voxel) : VoxelWorld :=
  match w.get pos with
  | some v => { w with voxels := w.voxels.set (w.idxOf pos) (f v) }
  | none => w

/-- voxel.rs `VoxelWorld::new`: all-default voxels, then the lower half
of the height range (`y < height/2`) pre-filled with soil. -/
def VoxelWorld.new (width height depth : Nat) : VoxelWorld :=
  let base : VoxelWorld :=
    ⟨List.replicate (width * height * depth) Voxel.default, width, height, depth⟩
  (List.range (height / 2)).foldl
    (fun w y =>
      (List.range width).foldl
        (fun w x =>
          (List.range depth).foldl
            (fun w z =>
              w.updateVoxel ⟨(x : Int), (y : Int), (z : Int)⟩
                (fun v => { v with voxel_type := .soil }))
            w)
        w)
    base

/-- voxel.rs `VoxelWorld::iter_positions`: row-major position order,
x fastest, then z, then y. -/
def VoxelWorld.iter_positions (w : VoxelWorld) : List VoxelPos :=
  (List.range w.height).flatMap (fun y =>
    (List.range w.depth).flatMap (fun z =>
      (List.range w.width).map (fun x => VoxelPos.new (x : Int) (y : Int) (z : Int))))

/-- Well-formedness of the dense storage: the voxel list has exactly
`width * height * depth` entries (always true of worlds built by
`VoxelWorld::new` and preserved by every system). -/
def VoxelWorld.WF (w : VoxelWorld) : Prop :=
  w.voxels.length = w.width * w.height * w.depth

/-! ## Environment systems (src/world/environment.rs) -/

/-- Light attenuation of environment.rs `update_light_system`: plant
material multiplies the running light by 0.6, soil by 0.1, air leaves it
unchanged. -/
def attenuate (t : VoxelType) (light : ℚ) : ℚ :=
  match t with
  | .plantMaterial _ _ => light * (6/10)
  | .soil => light * (1/10)
  | .air => light

/-- Descending y scan order of `update_light_system`:
`height-1, ..., 1, 0` (Rust `(0..height).rev()`). -/
def descYs (height : Nat) : List Int :=
  List.map (fun (y : Nat) => (y : Int)) (List.range height).reverse

/-- One column pass of environment.rs `update_light_system`: walk the
given y values carrying the running light value; each visited cell gets
its `light_level` set to the running value, which is then attenuated by
that cell's material. -/
def lightScanCol (x z : Int) : List Int → ℚ → VoxelWorld → VoxelWorld
  | [], _, w => w
  | y :: ys, light, w =>
    match w.get ⟨x, y, z⟩ with
    | some v =>
        lightScanCol x z ys (attenuate v.voxel_type light)
          (w.updateVoxel ⟨x, y, z⟩
            (fun u => { u with environment := { u.environment with light_level := light } }))
    | none => lightScanCol x z ys light w

/-- environment.rs `update_light_system`: every (x,z) column is scanned
top-down with the running light starting at `SUNLIGHT_MAX`. The outer
`for x { for z { .. } }` loops are flattened into one column list. -/
def update_light_system (w : VoxelWorld) : VoxelWorld :=
  ((List.range w.width).flatMap (fun x => (List.range w.depth).map (fun z => (x, z)))).foldl
    (fun acc xz => lightScanCol (xz.1 : Int) (xz.2 : Int) (descYs acc.height) SUNLIGHT_MAX acc)
    w

/-- Running light value that the column scan carries when it reaches
target height `y`: the fold of the attenuations of the cells visited
before `y`, mirroring `lightScanCol` but reading only material types. -/
def runningLight (w : VoxelWorld) (x z : Int) : List Int → ℚ → Int → ℚ
  | [], light, _ => light
  | y' :: ys, light, y =>
    if y' = y then light
    else
      match w.get ⟨x, y', z⟩ with
      | some v => runningLight w x z ys (attenuate v.voxel_type light) y
      | none => runningLight w x z ys light y

/-- The `light_level` assignment performed on one cell by the scan. -/
def lightWrite (light : ℚ) (v : Voxel) : Voxel :=
  { v with environment := { v.environment with light_level := light } }

/-- Per-cell body of environment.rs `regenerate_resources_system`: soil
cells gain `NUTRIENT_REGEN_RATE` nutrients and `WATER_REGEN_RATE` water,
clamped to the soil maxima; other cells are untouched. -/
def regenVoxel (v : Voxel) : Voxel :=
  match v.voxel_type with
  | .soil =>
      { v with environment :=
        { v.environment with
            nutrients := min (v.environment.nutrients + NUTRIENT_REGEN_RATE) SOIL_NUTRIENT_MAX,
            water := min (v.environment.water + WATER_REGEN_RATE) SOIL_WATER_MAX } }
  | _ => v

/-- environment.rs `regenerate_resources_system`: apply the soil
regeneration at every grid position. -/
def regenerate_resources_system (w : VoxelWorld) : VoxelWorld :=
  w.iter_positions.foldl (fun acc pos => acc.updateVoxel pos regenVoxel) w

/-! ## Plant biology (src/plant/biology.rs) -/

/-- biology.rs `PlantBiology` component. -/
structure PlantBiology where
  energy : ℚ
  age : ℚ
  is_alive : Bool
  total_mass : Nat
deriving DecidableEq

/-- biology.rs `PlantBiology::default`: 50 starting energy, age 0,
alive, zero mass. -/
def PlantBiology.default : PlantBiology := ⟨50, 0, true, 0⟩

/-- biology.rs `PlantStructure` component. -/
structure PlantStructure where
  root_position : VoxelPos
  voxel_positions : List VoxelPos
  leaf_positions : List VoxelPos
  root_positions : List VoxelPos
deriving DecidableEq

/-- biology.rs `PlantStructure::new`: the root position seeds both
`voxel_positions` and `root_positions`; no leaves yet. -/
def PlantStructure.new (root : VoxelPos) : PlantStructure :=
  ⟨root, [root], [], [root]⟩

/-- biology.rs `GrowthTimer`, modelled as the explicit accumulator of a
repeating 0.5-second bevy timer. -/
structure GrowthTimer where
  elapsed : ℚ
  duration : ℚ
deriving DecidableEq

/-- Default repeating half-second growth timer. -/
def GrowthTimer.default : GrowthTimer := ⟨0, 1/2⟩

/-- Tick the repeating timer by `dt`; returns the advanced timer and the
`just_finished` flag. -/
def GrowthTimer.tick (t : GrowthTimer) (dt : ℚ) : GrowthTimer × Bool :=
  let e := t.elapsed + dt
  if e ≥ t.duration then ({ t with elapsed := e - t.duration }, true)
  else ({ t with elapsed := e }, false)

/-- Per-plant body of biology.rs `photosynthesis_system`: dead plants
are skipped; otherwise each leaf contributes
`light × PHOTOSYNTHESIS_EFFICIENCY × efficiency_gene × dt`. -/
def photosynthesis_system (b : PlantBiology) (s : PlantStructure) (g : Genome)
    (w : VoxelWorld) (dt : ℚ) : PlantBiology :=
  if !b.is_alive then b
  else
    let gain := s.leaf_positions.foldl
      (fun acc leaf_pos =>
        match w.get leaf_pos with
        | some voxel =>
            acc + voxel.environment.light_level * PHOTOSYNTHESIS_EFFICIENCY
                * g.get_photosynthesis_efficiency * dt
        | none => acc) 0
    { b with energy := b.energy + gain }

/-- Absorption at one root position (body of the root loop in biology.rs
`resource_absorption_system`): take up to `ROOT_ABSORPTION_RATE × dt` of
nutrients and of water from the cell, returning the updated world and
the amounts absorbed. -/
def absorbAt (w : VoxelWorld) (root_pos : VoxelPos) (dt : ℚ) : VoxelWorld × ℚ × ℚ :=
  match w.get root_pos with
  | some voxel =>
      let absorption_rate := ROOT_ABSORPTION_RATE * dt
      let nutrients := min absorption_rate voxel.environment.nutrients
      let water := min absorption_rate voxel.environment.water
      (w.updateVoxel root_pos
        (fun v => { v with environment :=
          { v.environment with
              nutrients := v.environment.nutrients - nutrients,
              water := v.environment.water - water } }), nutrients, water)
  | none => (w, 0, 0)

/-- Per-plant body of biology.rs `resource_absorption_system`: dead
plants are skipped; otherwise absorb from every root position and add
`(nutrients + water) × 0.1` to the plant's energy. -/
def resource_absorption_system (b : PlantBiology) (s : PlantStructure) (w : VoxelWorld)
    (dt : ℚ) : PlantBiology × VoxelWorld :=
  if !b.is_alive then (b, w)
  else
    let res := s.root_positions.foldl
      (fun acc root_pos =>
        let (w', n, wa) := absorbAt acc.1 root_pos dt
        (w', acc.2.1 + n, acc.2.2 + wa))
      (w, 0, 0)
    ({ b with energy := b.energy + (res.2.1 + res.2.2) * (1/10) }, res.1)

/-- Per-plant body of biology.rs `maintenance_cost_system`: dead plants
are skipped; otherwise deduct the base maintenance
`voxel_count × BASE_MAINTENANCE_COST × dt` plus the gravity transport
surcharge `max(0, y - root.y) × 0.01 × dt` per voxel, and mark the plant
dead when the resulting energy is ≤ 0. -/
def maintenance_cost_system (b : PlantBiology) (s : PlantStructure) (dt : ℚ) : PlantBiology :=
  if !b.is_alive then b
  else
    let base_maintenance := (s.voxel_positions.length : ℚ) * BASE_MAINTENANCE_COST * dt
    let gravity_cost := s.voxel_positions.foldl
      (fun acc voxel_pos => acc + ((max (voxel_pos.y - s.root_position.y) 0 : Int) : ℚ) * (1/100) * dt) 0
    let energy' := b.energy - (base_maintenance + gravity_cost)
    if energy' ≤ 0 then { b with energy := energy', is_alive := false }
    else { b with energy := energy' }

/-- Per-plant body of biology.rs `aging_system`: age advances by `dt`
only while the plant is alive. -/
def aging_system (b : PlantBiology) (dt : ℚ) : PlantBiology :=
  if b.is_alive then { b with age := b.age + dt } else b

/-! ## Growth engine (src/plant/growth.rs) -/

/-- Last element of maximal y (Rust `Iterator::max_by_key` keeps the
last of equal maxima), used to pick the growth tip. -/
def maxByY (l : List VoxelPos) : Option VoxelPos :=
  l.foldl
    (fun acc p =>
      match acc with
      | none => some p
      | some q => if p.y ≥ q.y then some p else some q)
    none

/-- First element of minimal y (Rust `Iterator::min_by_key` keeps the
first of equal minima), used to find the deepest root. -/
def minByY (l : List VoxelPos) : Option VoxelPos :=
  l.foldl
    (fun acc p =>
      match acc with
      | none => some p
      | some q => if p.y < q.y then some p else some q)
    none

/-- growth.rs `can_grow_at`: the target voxel exists (in bounds) and is
air. -/
def can_grow_at (pos : VoxelPos) (w : VoxelWorld) : Bool :=
  match w.get pos with
  | some voxel => voxel.voxel_type.is_air
  | none => false

/-- growth.rs `can_grow_root_at`: the target voxel exists and is soil or
air (roots may displace soil). -/
def can_grow_root_at (pos : VoxelPos) (w : VoxelWorld) : Bool :=
  match w.get pos with
  | some voxel =>
      match voxel.voxel_type with
      | .soil => true
      | .air => true
      | _ => false
  | none => false

/-- growth.rs `grow_voxel`: deduct `BASE_GROWTH_COST`, append `pos` to
`voxel_positions`, refresh `total_mass` to the new list length, and
write plant material into the grid. The source constructs
`VoxelType::PlantMaterial { plant_id: plant_id.index() }` with no
`species_id` field although the declaration in voxel.rs requires one
(the file does not compile as written, and the growth system queries no
`GeneticLineage`, so no species id is in scope); the absent field is
embedded as the constant 0. -/
def grow_voxel (plant_id : Nat) (pos : VoxelPos) (b : PlantBiology) (s : PlantStructure)
    (w : VoxelWorld) : PlantBiology × PlantStructure × VoxelWorld :=
  let s' := { s with voxel_positions := s.voxel_positions ++ [pos] }
  let b' := { b with energy := b.energy - BASE_GROWTH_COST,
                     total_mass := s'.voxel_positions.length }
  (b', s', w.updateVoxel pos (fun v => { v with voxel_type := .plantMaterial plant_id 0 }))

/-- growth.rs `add_leaf`: choose one of five neighbour offsets; when the
target is air, claim it with `grow_voxel` and also record it in
`leaf_positions`. -/
def add_leaf (plant_id : Nat) (pos : VoxelPos) (b : PlantBiology) (s : PlantStructure)
    (w : VoxelWorld) (rng : Rng) : PlantBiology × PlantStructure × VoxelWorld × Rng :=
  let offsets : List VoxelPos :=
    [VoxelPos.new 1 0 0, VoxelPos.new (-1) 0 0, VoxelPos.new 0 1 0,
     VoxelPos.new 0 0 1, VoxelPos.new 0 0 (-1)]
  let (roll, rng1) := rng.next
  match chooseFrom offsets roll with
  | some offset =>
      let leaf_pos := VoxelPos.new (pos.x + offset.x) (pos.y + offset.y) (pos.z + offset.z)
      if can_grow_at leaf_pos w then
        let (b1, s1, w1) := grow_voxel plant_id leaf_pos b s w
        (b1, { s1 with leaf_positions := s1.leaf_positions ++ [leaf_pos] }, w1, rng1)
      else (b, s, w, rng1)
  | none => (b, s, w, rng1)

/-- growth.rs `try_grow_upward`: attempt the cell directly above; on
success, with probability `get_leaf_density` also attempt a leaf. -/
def try_grow_upward (plant_id : Nat) (b : PlantBiology) (s : PlantStructure) (g : Genome)
    (from_pos : VoxelPos) (w : VoxelWorld) (rng : Rng) :
    PlantBiology × PlantStructure × VoxelWorld × Rng :=
  let new_pos := VoxelPos.new from_pos.x (from_pos.y + 1) from_pos.z
  if can_grow_at new_pos w then
    let (b1, s1, w1) := grow_voxel plant_id new_pos b s w
    let (roll, rng1) := rng.next
    if roll < g.get_leaf_density then add_leaf plant_id new_pos b1 s1 w1 rng1
    else (b1, s1, w1, rng1)
  else (b, s, w, rng)

/-- growth.rs `try_grow_branch`: choose one of the four horizontal
neighbours of `from_pos`; on success, with probability
`get_leaf_density × 1.5` also attempt a leaf. -/
def try_grow_branch (plant_id : Nat) (b : PlantBiology) (s : PlantStructure) (g : Genome)
    (from_pos : VoxelPos) (w : VoxelWorld) (rng : Rng) :
    PlantBiology × PlantStructure × VoxelWorld × Rng :=
  let directions : List VoxelPos :=
    [VoxelPos.new (from_pos.x + 1) from_pos.y from_pos.z,
     VoxelPos.new (from_pos.x - 1) from_pos.y from_pos.z,
     VoxelPos.new from_pos.x from_pos.y (from_pos.z + 1),
     VoxelPos.new from_pos.x from_pos.y (from_pos.z - 1)]
  let (roll, rng1) := rng.next
  match chooseFrom directions roll with
  | some new_pos =>
      if can_grow_at new_pos w then
        let (b1, s1, w1) := grow_voxel plant_id new_pos b s w
        let (roll2, rng2) := rng1.next
        if roll2 < g.get_leaf_density * (3/2) then add_leaf plant_id new_pos b1 s1 w1 rng2
        else (b1, s1, w1, rng2)
      else (b, s, w, rng1)
  | none => (b, s, w, rng1)

/-- growth.rs `try_grow_root`: find the deepest root (first of equal
minima), stop at the genome's root-depth limit, else claim the cell
directly below when it is soil or air, recording it in
`root_positions`. The source takes the generator as an argument but
never draws from it. -/
def try_grow_root (plant_id : Nat) (b : PlantBiology) (s : PlantStructure) (g : Genome)
    (w : VoxelWorld) : PlantBiology × PlantStructure × VoxelWorld :=
  let deepest_root := (minByY s.root_positions).getD s.root_position
  let max_depth := s.root_position.y - g.get_root_depth
  if deepest_root.y ≤ max_depth then (b, s, w)
  else
    let new_pos := VoxelPos.new deepest_root.x (deepest_root.y - 1) deepest_root.z
    if can_grow_root_at new_pos w then
      let (b1, s1, w1) := grow_voxel plant_id new_pos b s w
      (b1, { s1 with root_positions := s1.root_positions ++ [new_pos] }, w1)
    else (b, s, w)

/-- Branch-vs-upward attempt of growth.rs `plant_growth_system`: with
probability `get_branching_frequency` branch from a uniformly chosen
occupied voxel, otherwise grow upward from the highest occupied voxel
(last of equal maxima). -/
def growth_attempt (plant_id : Nat) (b : PlantBiology) (s : PlantStructure) (g : Genome)
    (w : VoxelWorld) (rng : Rng) : PlantBiology × PlantStructure × VoxelWorld × Rng :=
  let (roll, rng1) := rng.next
  if roll < g.get_branching_frequency then
    let (roll2, rngA) := rng1.next
    match chooseFrom s.voxel_positions roll2 with
    | some growth_pos => try_grow_branch plant_id b s g growth_pos w rngA
    | none => (b, s, w, rngA)
  else
    match maxByY s.voxel_positions with
    | some highest_pos => try_grow_upward plant_id b s g highest_pos w rng1
    | none => (b, s, w, rng1)

/-- Per-plant body of growth.rs `plant_growth_system` (continued): the
early-out guards, the branch-or-upward attempt (`growth_attempt` above
names the inline if/else of the source body), and the final
30%-probability root-growth step. -/
def plant_growth_system (plant_id : Nat) (b : PlantBiology) (s : PlantStructure) (g : Genome)
    (t : GrowthTimer) (w : VoxelWorld) (rng : Rng) (dt : ℚ) :
    PlantBiology × PlantStructure × GrowthTimer × VoxelWorld × Rng :=
  if !b.is_alive then (b, s, t, w, rng)
  else
    let (t', fin) := t.tick dt
    if !fin then (b, s, t', w, rng)
    else if b.energy < BASE_GROWTH_COST then (b, s, t', w, rng)
    else
      let current_height := ((s.voxel_positions.map (fun p => p.y)).max?).getD 0
      if current_height ≥ g.get_max_height + s.root_position.y then (b, s, t', w, rng)
      else
        let (b1, s1, w1, rng2) := growth_attempt plant_id b s g w rng
        let (roll3, rng3) := rng2.next
        if roll3 < 3/10 then
          let (b2, s2, w2) := try_grow_root plant_id b1 s1 g w1
          (b2, s2, t', w2, rng3)
        else (b1, s1, t', w1, rng3)

/-! ## Reproduction and speciation (src/plant/reproduction.rs) -/

/-- reproduction.rs `SPECIES_DIVERGENCE_THRESHOLD` = 0.25. -/
def SPECIES_DIVERGENCE_THRESHOLD : ℚ := 1/4

/-- reproduction.rs `is_valid_seed_position`: the candidate cell is soil
and the cell directly above it exists and is air. -/
def is_valid_seed_position (pos : VoxelPos) (w : VoxelWorld) : Bool :=
  match w.get pos with
  | some voxel =>
      match voxel.voxel_type with
      | .soil =>
          match w.get (VoxelPos.new pos.x (pos.y + 1) pos.z) with
          | some above_voxel => above_voxel.voxel_type.is_air
          | none => false
      | _ => false
  | none => false

/-- reproduction.rs `find_seed_position`: up to 20 attempts (the fuel
argument), each drawing two rolls for a horizontal offset within
`SEED_DISPERSAL_RANGE` of the parent root, returning the first valid
candidate. -/
def find_seed_position : Nat → VoxelPos → VoxelWorld → Rng → Option VoxelPos × Rng
  | 0, _, _, rng => (none, rng)
  | n + 1, parent_pos, w, rng =>
      let (r1, rng1) := rng.next
      let (r2, rng2) := rng1.next
      let offset_x := rollRange r1 (-SEED_DISPERSAL_RANGE) SEED_DISPERSAL_RANGE
      let offset_z := rollRange r2 (-SEED_DISPERSAL_RANGE) SEED_DISPERSAL_RANGE
      let candidate := VoxelPos.new (parent_pos.x + offset_x) parent_pos.y
        (parent_pos.z + offset_z)
      if is_valid_seed_position candidate w then (some candidate, rng2)
      else find_seed_position n parent_pos w rng2

/-- Species decision of reproduction.rs `reproduction_system` (lines
45-56): when the parent-offspring genetic distance exceeds
`SPECIES_DIVERGENCE_THRESHOLD`, hand out the counter's `next_id` and
advance the counter; otherwise inherit the parent's species id. Returns
(offspring species id, new counter value). -/
def assignSpecies (parent offspring : Genome) (parent_species next_id : Nat) : Nat × Nat :=
  if Genome.distance parent offspring > SPECIES_DIVERGENCE_THRESHOLD then
    (next_id, next_id + 1)
  else
    (parent_species, next_id)

/-- A collected offspring record of reproduction.rs `seeds_to_spawn`. -/
structure Seed where
  pos : VoxelPos
  genome : Genome
  generation : Nat
  parent_id : Option Nat
  species_id : Nat

/-- Per-plant body of reproduction.rs `reproduction_system`: dead plants
are skipped; a live plant with energy at or above its genome's
reproduction threshold pays `REPRODUCTION_ENERGY_COST` (even when no
seed site is found), then searches for a seed site, derives the
offspring genome, and classifies its species. Returns the updated
biology, the new species counter, the advanced generator, and the seeds
collected for deferred spawning. -/
def reproduction_system (plant_id : Nat) (b : PlantBiology) (s : PlantStructure) (g : Genome)
    (lin : GeneticLineage) (w : VoxelWorld) (next_id : Nat) (rng : Rng) :
    PlantBiology × Nat × Rng × List Seed :=
  if !b.is_alive then (b, next_id, rng, [])
  else if b.energy ≥ g.get_reproduction_threshold then
    let b' := { b with energy := b.energy - REPRODUCTION_ENERGY_COST }
    match find_seed_position 20 s.root_position w rng with
    | (some seed_pos, rng1) =>
        let (offspring_genome, rng2) := g.reproduce rng1
        let (sid, next') := assignSpecies g offspring_genome lin.species_id next_id
        (b', next', rng2,
          [⟨seed_pos, offspring_genome, lin.generation + 1, some plant_id, sid⟩])
    | (none, rng1) => (b', next_id, rng1, [])
  else (b, next_id, rng, [])

/-- reproduction.rs `spawn_plant`: the components attached to a freshly
spawned plant entity. The world is not an argument: spawning writes
nothing into the grid. -/
def spawn_plant (root_pos : VoxelPos) (genome : Genome) (generation : Nat)
    (parent_id : Option Nat) (species_id : Nat) :
    PlantBiology × PlantStructure × Genome × GeneticLineage × GrowthTimer :=
  (PlantBiology.default, PlantStructure.new root_pos, genome,
    ⟨generation, parent_id, species_id⟩, GrowthTimer.default)

/-- Per-plant body of reproduction.rs `cleanup_dead_plants_system`: a
dead plant has every position of its `voxel_positions` reverted to soil
in the grid and is despawned (the returned flag). Live plants are left
alone. -/
def cleanup_dead_plants_system (b : PlantBiology) (s : PlantStructure) (w : VoxelWorld) :
    VoxelWorld × Bool :=
  if !b.is_alive then
    (s.voxel_positions.foldl
      (fun acc pos => acc.updateVoxel pos (fun v => { v with voxel_type := .soil })) w,
     true)
  else (w, false)

/-! ## Step sequences for the range invariant (C9) -/

/-- One step of the C9 invariant game: a genome mutation (one
`Genome::reproduce` call), one soil-regeneration pass, or one plant's
root-absorption pass. -/
inductive EvoStep where
  | mutation (r : Rng)
  | regen
  | absorb (b : PlantBiology) (s : PlantStructure) (dt : ℚ)

/-- Apply one `EvoStep` to a genome/world pair. -/
def applyEvoStep (st : EvoStep) (gw : Genome × VoxelWorld) : Genome × VoxelWorld :=
  match st with
  | .mutation r => ((gw.1.reproduce r).1, gw.2)
  | .regen => (gw.1, regenerate_resources_system gw.2)
  | .absorb b s dt => (gw.1, (resource_absorption_system b s gw.2 dt).2)

/-- Apply a finite sequence of `EvoStep`s in order. -/
def applyEvoSteps (steps : List EvoStep) (gw : Genome × VoxelWorld) : Genome × VoxelWorld :=
  steps.foldl (fun acc st => applyEvoStep st acc) gw

/-- A `dt` bound for C9: absorption steps must use a nonnegative time
delta (wall-clock deltas are nonnegative). -/
def EvoStep.nonnegDt : EvoStep → Prop
  | .absorb _ _ dt => 0 ≤ dt
  | _ => True

/-- Range invariant on a single gene. -/
def geneOk (g : Gene) : Prop := 0 ≤ g.value ∧ g.value ≤ 1

/-- Range invariant on a genome: all nine genes in [0,1]. -/
def GenomeInv (g : Genome) : Prop :=
  geneOk g.growth_rate ∧ geneOk g.max_height ∧ geneOk g.leaf_density ∧
    geneOk g.root_depth ∧ geneOk g.branching_frequency ∧
    geneOk g.photosynthesis_efficiency ∧ geneOk g.reproduction_threshold ∧
    geneOk g.mutation_rate ∧ geneOk g.horizontal_growth_tendency

/-- Range invariant on one voxel: a soil cell's nutrients and water lie
in [0, 100]. -/
def voxelOk (v : Voxel) : Prop :=
  v.voxel_type = .soil →
    (0 ≤ v.environment.nutrients ∧ v.environment.nutrients ≤ SOIL_NUTRIENT_MAX ∧
     0 ≤ v.environment.water ∧ v.environment.water ≤ SOIL_WATER_MAX)

/-- Range invariant on a world: every stored voxel satisfies `voxelOk`. -/
def WorldInv (w : VoxelWorld) : Prop := ∀ v ∈ w.voxels, voxelOk v

/-! ## Concrete fixtures used by witnesses and counterexamples -/

/-- A soil voxel with default environment. -/
def soilVoxel : Voxel := ⟨.soil, VoxelEnvironment.default⟩

/-- An air voxel with default environment. -/
def airVoxel : Voxel := Voxel.default

/-- A 1×4×1 world: soil at y = 0 and y = 1, air at y = 2 and y = 3
(the storage index of (0,y,0) is y). -/
def columnWorld : VoxelWorld := ⟨[soilVoxel, soilVoxel, airVoxel, airVoxel], 1, 4, 1⟩

/-- Parent genome for the C7 divergence scenario (all genes 1/5). -/
def parentFar : Genome := constGenome (1/5)

/-- Offspring genome at genetic distance 3/10 from `parentFar`. -/
def childFar : Genome := constGenome (1/2)

/-- Parent genome for the C7 inheritance scenario (all genes 1/2). -/
def parentNear : Genome := constGenome (1/2)

/-- Offspring genome at genetic distance 1/10 from `parentNear`. -/
def childNear : Genome := constGenome (3/5)

/-- A plant-material voxel owned by plant 7, species 0. -/
def plantVoxel : Voxel := ⟨.plantMaterial 7 0, VoxelEnvironment.default⟩

/-- A 1×4×1 world whose cells at y = 1 and y = 2 are plant material of
plant 7 (soil below, air above). -/
def deadWorld : VoxelWorld := ⟨[soilVoxel, plantVoxel, plantVoxel, airVoxel], 1, 4, 1⟩

/-- A dead plant's biology (energy exhausted). -/
def deadPlantBio : PlantBiology := ⟨0, 5, false, 2⟩

/-- Structure of the dead plant occupying (0,1,0) and (0,2,0). -/
def deadStruct : PlantStructure :=
  ⟨⟨0, 1, 0⟩, [⟨0, 1, 0⟩, ⟨0, 2, 0⟩], [], [⟨0, 1, 0⟩]⟩

/-- An alive plant biology used by the C5 witness. -/
def aliveBio : PlantBiology := PlantBiology.default

/-- A neutral lineage fixture. -/
def lin0 : GeneticLineage := ⟨0, none, 0⟩

/-! # Theorems -/
/-! ## Basic mutation-step lemmas -/

/-- A gene is left unchanged by `Gene::mutate` when its decision roll is
not below `MUTATION_RATE`; exactly one roll is consumed. -/
lemma Gene.mutate_skip (g : Gene) (s : Nat → ℚ) (i : Nat) (h : ¬ s i < MUTATION_RATE) :
    Gene.mutate g ⟨s, i⟩ = (g, ⟨s, i + 1⟩) := by
  simp [Gene.mutate, Rng.next, h]

/-- A gene is perturbed by `Gene::mutate` when its decision roll is below
`MUTATION_RATE`; the next roll provides the offset. -/
lemma Gene.mutate_hit (g : Gene) (s : Nat → ℚ) (i : Nat) (h : s i < MUTATION_RATE) :
    Gene.mutate g ⟨s, i⟩ =
      (⟨clampQ (g.value + (s (i+1) - 1/2) * MUTATION_STRENGTH * 2) 0 1⟩, ⟨s, i + 1 + 1⟩) := by
  simp [Gene.mutate, Rng.next, h]

/-- Skip case of the spec-side single-gene perturbation. -/
lemma mutateGeneAt_skip (p : ℚ) (g : Gene) (s : Nat → ℚ) (i : Nat) (h : ¬ s i < p) :
    mutateGeneAt p g ⟨s, i⟩ = (g, ⟨s, i + 1⟩) := by
  simp [mutateGeneAt, Rng.next, h]

/-- Hit case of the spec-side single-gene perturbation. -/
lemma mutateGeneAt_hit (p : ℚ) (g : Gene) (s : Nat → ℚ) (i : Nat) (h : s i < p) :
    mutateGeneAt p g ⟨s, i⟩ =
      (⟨clampQ (g.value + (s (i+1) - 1/2) * MUTATION_STRENGTH * 2) 0 1⟩, ⟨s, i + 1 + 1⟩) := by
  simp [mutateGeneAt, Rng.next, h]

/-- On the C3 test stream every index other than 8 holds the roll 9/10,
which never passes a `MUTATION_RATE` check. -/
lemma c3skip (i : Nat) (h : i ≠ 8) (g : Gene) :
    Gene.mutate g ⟨c3Stream, i⟩ = (g, ⟨c3Stream, i + 1⟩) :=
  Gene.mutate_skip g _ _ (by norm_num [c3Stream, MUTATION_RATE, h])

/-- Evaluation of the source `Genome::reproduce` on the C3 test input:
the outer half-rate guard passes (roll 1/50 < 1/40) but `Gene::mutate`'s
own inner `MUTATION_RATE` coin fails (roll 9/10), so the mutation-rate
gene keeps its value 1/2. -/
lemma c3_code_eval :
    (Genome.reproduce (constGenome (1/2)) c3Rng).1.mutation_rate.value = 1/2 := by
  have h8 : Rng.next ⟨c3Stream, 8⟩ = (1/50, ⟨c3Stream, 9⟩) := rfl
  unfold Genome.reproduce
  simp only [c3Rng, constGenome,
    c3skip 0 (by decide), c3skip 1 (by decide), c3skip 2 (by decide), c3skip 3 (by decide),
    c3skip 4 (by decide), c3skip 5 (by decide), c3skip 6 (by decide), c3skip 7 (by decide),
    h8]
  rw [if_pos (by norm_num [MUTATION_RATE])]
  rw [c3skip 9 (by decide)]

/-- Evaluation of the claim's description on the same C3 test input: a
gene perturbed with probability `MUTATION_RATE / 2` fires on the 1/50
roll and moves from 1/2 to 29/50. -/
lemma c3_claim_eval :
    (claimReproduceHalf (constGenome (1/2)) c3Rng).1.mutation_rate.value = 29/50 := by
  unfold claimReproduceHalf
  simp only [c3Rng, constGenome,
    mutateGeneAt_skip MUTATION_RATE _ c3Stream 0 (by norm_num [c3Stream, MUTATION_RATE]),
    mutateGeneAt_skip MUTATION_RATE _ c3Stream 1 (by norm_num [c3Stream, MUTATION_RATE]),
    mutateGeneAt_skip MUTATION_RATE _ c3Stream 2 (by norm_num [c3Stream, MUTATION_RATE]),
    mutateGeneAt_skip MUTATION_RATE _ c3Stream 3 (by norm_num [c3Stream, MUTATION_RATE]),
    mutateGeneAt_skip MUTATION_RATE _ c3Stream 4 (by norm_num [c3Stream, MUTATION_RATE]),
    mutateGeneAt_skip MUTATION_RATE _ c3Stream 5 (by norm_num [c3Stream, MUTATION_RATE]),
    mutateGeneAt_skip MUTATION_RATE _ c3Stream 6 (by norm_num [c3Stream, MUTATION_RATE]),
    mutateGeneAt_skip MUTATION_RATE _ c3Stream 7 (by norm_num [c3Stream, MUTATION_RATE]),
    mutateGeneAt_hit (MUTATION_RATE * (1/2)) _ c3Stream 8 (by norm_num [c3Stream, MUTATION_RATE])]
  norm_num [c3Stream, MUTATION_STRENGTH, clampQ]

/-- C3 (counterexample): it is NOT the case that `Genome::reproduce`
perturbs the mutation-rate gene with probability `MUTATION_RATE / 2`
(with the other genes handled at `MUTATION_RATE`): on the concrete
stream `c3Stream` the half-rate description (`claimReproduceHalf`)
changes the mutation-rate gene to 29/50 while the source leaves it at
1/2, because the source's outer half-rate guard only leads to a second
independent `MUTATION_RATE` coin inside `Gene::mutate`. -/
theorem c3_mutation_rate_half_counterexample :
    ¬ ∀ (g : Genome) (r : Rng), Genome.reproduce g r = claimReproduceHalf g r := by
  intro hAll
  have h : (Genome.reproduce (constGenome (1/2)) c3Rng).1.mutation_rate.value
      = (claimReproduceHalf (constGenome (1/2)) c3Rng).1.mutation_rate.value := by
    rw [hAll]
  rw [c3_code_eval, c3_claim_eval] at h
  norm_num at h

/-- C3 (amended): in `Genome::reproduce` each gene other than the
mutation-rate gene is independently perturbed with probability
`MUTATION_RATE` by a uniform random offset in
[-MUTATION_STRENGTH, +MUTATION_STRENGTH] clamped into [0,1], while the
mutation-rate gene is only submitted, with probability
`MUTATION_RATE / 2`, to a further standard `MUTATION_RATE` perturbation,
so both coins must succeed for it to change (effective probability
`MUTATION_RATE² / 2`, not `MUTATION_RATE / 2`). -/
theorem c3_mutation_rate_amended (g : Genome) (r : Rng) :
    Genome.reproduce g r = claimReproduceAmended g r := rfl

/-- C8: genetic distance is the unweighted mean of absolute per-gene
differences over the nine genes: it is symmetric, a genome is at
distance 0 from an exact clone, and the all-0 and all-1 genomes are at
distance 1. -/
theorem c8_distance_mean :
    (∀ g : Genome, Genome.distance g g = 0) ∧
    (∀ a b : Genome, Genome.distance a b = Genome.distance b a) ∧
    Genome.distance (constGenome 0) (constGenome 1) = 1 := by
  refine ⟨fun g => ?_, fun a b => ?_, ?_⟩
  · simp [Genome.distance]
  · simp [Genome.distance, abs_sub_comm]
  · norm_num [Genome.distance, constGenome]

/-- C10: after every `grow_voxel` the plant's `total_mass` equals the
length of `voxel_positions`, while a freshly spawned plant starts with
`total_mass = 0` even though `voxel_positions` already holds exactly the
root position — so the equality is first established by the first
successful growth. -/
theorem c10_mass_tracks_voxels :
    (∀ (plant_id : Nat) (pos : VoxelPos) (b : PlantBiology) (s : PlantStructure)
        (w : VoxelWorld),
      (grow_voxel plant_id pos b s w).1.total_mass
        = (grow_voxel plant_id pos b s w).2.1.voxel_positions.length) ∧
    PlantBiology.default.total_mass = 0 ∧
    (∀ root : VoxelPos, (PlantStructure.new root).voxel_positions = [root]) ∧
    (∀ (root : VoxelPos) (genome : Genome) (generation : Nat) (parent_id : Option Nat)
        (species_id : Nat),
      (spawn_plant root genome generation parent_id species_id).1.total_mass = 0 ∧
      (spawn_plant root genome generation parent_id species_id).2.1.voxel_positions.length
        = 1) := by
  refine ⟨fun plant_id pos b s w => ?_, rfl, fun root => rfl, fun root g gn p sid => ⟨rfl, rfl⟩⟩
  simp [grow_voxel]

/-- C7: the species decision of `reproduction_system` hands the
offspring the counter's fresh id (and advances the counter) exactly when
the parent-offspring distance exceeds 0.25, and otherwise the parent's
id (counter untouched); a fresh id differs from the parent's id whenever
the parent's id is below the counter, as holds for every id the
simulation has handed out. -/
theorem c7_species_assignment (pg og : Genome) (ps c : Nat) (h : ps < c) :
    (Genome.distance pg og > SPECIES_DIVERGENCE_THRESHOLD →
      (assignSpecies pg og ps c).1 = c ∧ (assignSpecies pg og ps c).1 ≠ ps ∧
        (assignSpecies pg og ps c).2 = c + 1) ∧
    (¬ Genome.distance pg og > SPECIES_DIVERGENCE_THRESHOLD →
      (assignSpecies pg og ps c).1 = ps ∧ (assignSpecies pg og ps c).2 = c) := by
  constructor <;> intro hd
  · unfold assignSpecies
    rw [if_pos hd]
    exact ⟨rfl, by omega, rfl⟩
  · unfold assignSpecies
    rw [if_neg hd]
    exact ⟨rfl, rfl⟩

/-- C7 (witness): at distance 3/10 > 1/4 the offspring of a species-3
parent gets the fresh id 10 ≠ 3 and the counter advances to 11; at
distance 1/10 the offspring inherits id 3 and the counter stays 10. -/
theorem c7_species_assignment_witness :
    (assignSpecies parentFar childFar 3 10).1 = 10 ∧
    (assignSpecies parentFar childFar 3 10).1 ≠ 3 ∧
    (assignSpecies parentFar childFar 3 10).2 = 11 ∧
    (assignSpecies parentNear childNear 3 10).1 = 3 ∧
    (assignSpecies parentNear childNear 3 10).2 = 10 := by
  have h1 := (c7_species_assignment parentFar childFar 3 10 (by norm_num)).1
    (by norm_num [Genome.distance, parentFar, childFar, constGenome,
      SPECIES_DIVERGENCE_THRESHOLD, abs_of_nonpos, abs_of_nonneg])
  have h2 := (c7_species_assignment parentNear childNear 3 10 (by norm_num)).2
    (by norm_num [Genome.distance, parentNear, childNear, constGenome,
      SPECIES_DIVERGENCE_THRESHOLD, abs_of_nonpos, abs_of_nonneg])
  exact ⟨h1.1, h1.2.1, h1.2.2, h2.1, h2.2⟩

/-! ## Grid access lemmas -/

/-- The row-major index formula is injective on in-range coordinates. -/
lemma pos_to_index_inj {W D : Nat} {x x' z z' y y' : Nat}
    (hx : x < W) (hx' : x' < W) (hz : z < D) (hz' : z' < D)
    (h : VoxelWorld.pos_to_index x y z W D = VoxelWorld.pos_to_index x' y' z' W D) :
    x = x' ∧ z = z' ∧ y = y' := by
  have hW : 0 < W := Nat.pos_of_ne_zero (by omega)
  have hD : 0 < D := Nat.pos_of_ne_zero (by omega)
  have h' : x + W * (z + D * y) = x' + W * (z' + D * y') := by
    have e : ∀ a b c : Nat, VoxelWorld.pos_to_index a b c W D = a + W * (c + D * b) := by
      intro a b c
      unfold VoxelWorld.pos_to_index
      ring
    rw [e, e] at h
    exact h
  have ex : x = x' := by
    have m := congrArg (fun t => t % W) h'
    simp only [Nat.add_mul_mod_self_left] at m
    rwa [Nat.mod_eq_of_lt hx, Nat.mod_eq_of_lt hx'] at m
  subst ex
  have h2 : z + D * y = z' + D * y' :=
    Nat.eq_of_mul_eq_mul_left hW (Nat.add_left_cancel h')
  have ez : z = z' := by
    have m := congrArg (fun t => t % D) h2
    simp only [Nat.add_mul_mod_self_left] at m
    rwa [Nat.mod_eq_of_lt hz, Nat.mod_eq_of_lt hz'] at m
  subst ez
  exact ⟨rfl, rfl, Nat.eq_of_mul_eq_mul_left hD (Nat.add_left_cancel h2)⟩

/-- Unfolded meaning of the bounds check. -/
lemma is_in_bounds_iff (w : VoxelWorld) (p : VoxelPos) :
    w.is_in_bounds p = true ↔
      0 ≤ p.x ∧ 0 ≤ p.y ∧ 0 ≤ p.z ∧
        p.x.toNat < w.width ∧ p.y.toNat < w.height ∧ p.z.toNat < w.depth := by
  simp [VoxelWorld.is_in_bounds, decide_eq_true_eq, and_assoc]

/-- In-bounds positions index into the well-formed dense storage. -/
lemma idxOf_lt_length {w : VoxelWorld} {p : VoxelPos} (hWF : w.WF)
    (hb : w.is_in_bounds p = true) : w.idxOf p < w.voxels.length := by
  rw [is_in_bounds_iff] at hb
  obtain ⟨-, -, -, hx, hy, hz⟩ := hb
  rw [hWF]
  unfold VoxelWorld.idxOf VoxelWorld.pos_to_index
  set a := p.x.toNat
  set b := p.y.toNat
  set c := p.z.toNat
  calc a + c * w.width + b * w.width * w.depth
      < w.width + c * w.width + b * w.width * w.depth := by omega
    _ = (1 + c) * w.width + b * w.width * w.depth := by ring
    _ ≤ w.depth * w.width + b * w.width * w.depth := by
        have : 1 + c ≤ w.depth := by omega
        exact Nat.add_le_add_right (Nat.mul_le_mul_right _ this) _
    _ = (w.width * w.depth) * (1 + b) := by ring
    _ ≤ (w.width * w.depth) * w.height := by
        have : 1 + b ≤ w.height := by omega
        exact Nat.mul_le_mul_left _ this
    _ = w.width * w.height * w.depth := by ring

/-- Distinct in-bounds positions occupy distinct storage slots. -/
lemma idxOf_ne {w : VoxelWorld} {p q : VoxelPos} (hp : w.is_in_bounds p = true)
    (hq : w.is_in_bounds q = true) (hne : p ≠ q) : w.idxOf p ≠ w.idxOf q := by
  intro hidx
  rw [is_in_bounds_iff] at hp hq
  obtain ⟨hpx, hpy, hpz, hpx', hpy', hpz'⟩ := hp
  obtain ⟨hqx, hqy, hqz, hqx', hqy', hqz'⟩ := hq
  obtain ⟨ex, ez, ey⟩ := pos_to_index_inj hpx' hqx' hpz' hqz' hidx
  apply hne
  have ex' : p.x = q.x := by omega
  have ey' : p.y = q.y := by omega
  have ez' : p.z = q.z := by omega
  cases p
  cases q
  simp_all

/-- `updateVoxel` never changes the dimensions or the storage length. -/
lemma updateVoxel_shape (w : VoxelWorld) (p : VoxelPos) (f : Voxel → Voxel) :
    (w.updateVoxel p f).width = w.width ∧ (w.updateVoxel p f).height = w.height ∧
    (w.updateVoxel p f).depth = w.depth ∧
    (w.updateVoxel p f).voxels.length = w.voxels.length := by
  unfold VoxelWorld.updateVoxel
  cases w.get p <;> simp

/-- `updateVoxel` preserves well-formedness. -/
lemma updateVoxel_WF {w : VoxelWorld} (p : VoxelPos) (f : Voxel → Voxel) (hWF : w.WF) :
    (w.updateVoxel p f).WF := by
  obtain ⟨h1, h2, h3, h4⟩ := updateVoxel_shape w p f
  unfold VoxelWorld.WF at hWF ⊢
  rw [h1, h2, h3, h4, hWF]

/-- `updateVoxel` leaves the bounds predicate unchanged. -/
lemma updateVoxel_is_in_bounds (w : VoxelWorld) (p q : VoxelPos) (f : Voxel → Voxel) :
    (w.updateVoxel p f).is_in_bounds q = w.is_in_bounds q := by
  obtain ⟨h1, h2, h3, h4⟩ := updateVoxel_shape w p f
  unfold VoxelWorld.is_in_bounds
  rw [h1, h2, h3]

/-- `updateVoxel` leaves `idxOf` unchanged. -/
lemma updateVoxel_idxOf (w : VoxelWorld) (p q : VoxelPos) (f : Voxel → Voxel) :
    (w.updateVoxel p f).idxOf q = w.idxOf q := by
  obtain ⟨h1, h2, h3, h4⟩ := updateVoxel_shape w p f
  unfold VoxelWorld.idxOf
  rw [h1, h3]

/-- Reading back the written position: `updateVoxel` maps the stored
voxel through `f` (and does nothing when the position has no voxel). -/
lemma get_updateVoxel_self (w : VoxelWorld) (p : VoxelPos) (f : Voxel → Voxel) :
    (w.updateVoxel p f).get p = (w.get p).map f := by
  cases hv : w.get p with
  | none =>
      have : w.updateVoxel p f = w := by
        unfold VoxelWorld.updateVoxel
        rw [hv]
      rw [this, hv]
      rfl
  | some v =>
      have hb : w.is_in_bounds p = true := by
        by_contra hb
        unfold VoxelWorld.get at hv
        simp [hb] at hv
      have hidx : w.voxels[w.idxOf p]? = some v := by
        unfold VoxelWorld.get at hv
        rw [if_pos hb] at hv
        exact hv
      have hlt : w.idxOf p < w.voxels.length := (List.getElem?_eq_some.mp hidx).1
      have hset : (w.updateVoxel p f).voxels = w.voxels.set (w.idxOf p) (f v) := by
        unfold VoxelWorld.updateVoxel
        rw [hv]
      show (w.updateVoxel p f).get p = some (f v)
      unfold VoxelWorld.get
      rw [updateVoxel_is_in_bounds, updateVoxel_idxOf, if_pos hb, hset]
      exact List.getElem?_set_eq_of_lt (f v) hlt

/-- Reading any other position: `updateVoxel` is invisible elsewhere. -/
lemma get_updateVoxel_ne {w : VoxelWorld} {p q : VoxelPos} (f : Voxel → Voxel)
    (hne : p ≠ q) : (w.updateVoxel p f).get q = w.get q := by
  cases hv : w.get p with
  | none =>
      have : w.updateVoxel p f = w := by
        unfold VoxelWorld.updateVoxel
        rw [hv]
      rw [this]
  | some v =>
      have hbp : w.is_in_bounds p = true := by
        by_contra hb
        unfold VoxelWorld.get at hv
        simp [hb] at hv
      have hset : (w.updateVoxel p f).voxels = w.voxels.set (w.idxOf p) (f v) := by
        unfold VoxelWorld.updateVoxel
        rw [hv]
      unfold VoxelWorld.get
      rw [updateVoxel_is_in_bounds, updateVoxel_idxOf, hset]
      cases hbq : w.is_in_bounds q with
      | false => simp
      | true =>
          have hidxne : w.idxOf p ≠ w.idxOf q := idxOf_ne hbp hbq hne
          rw [if_pos rfl, if_pos rfl]
          exact List.getElem?_set_ne hidxne

/-! ## Metabolic and frame lemmas -/

/-- Accumulating fold as a mapped sum. -/
lemma foldl_add_eq_sum {α : Type} (f : α → ℚ) (l : List α) (init : ℚ) :
    l.foldl (fun acc p => acc + f p) init = init + (l.map f).sum := by
  induction l generalizing init with
  | nil => simp
  | cons a t ih => simp [ih, add_assoc]


/-- `grow_voxel` never touches the alive flag or the age. -/
lemma grow_voxel_alive (plant_id : Nat) (pos : VoxelPos) (b : PlantBiology)
    (s : PlantStructure) (w : VoxelWorld) :
    (grow_voxel plant_id pos b s w).1.is_alive = b.is_alive ∧
    (grow_voxel plant_id pos b s w).1.age = b.age := ⟨rfl, rfl⟩

/-- `add_leaf` never touches the alive flag. -/
lemma add_leaf_alive (plant_id : Nat) (pos : VoxelPos) (b : PlantBiology)
    (s : PlantStructure) (w : VoxelWorld) (rng : Rng) :
    (add_leaf plant_id pos b s w rng).1.is_alive = b.is_alive := by
  unfold add_leaf
  dsimp only [Rng.next, grow_voxel]
  split
  · split
    · rfl
    · rfl
  · rfl

/-- `try_grow_upward` never touches the alive flag. -/
lemma try_grow_upward_alive (plant_id : Nat) (b : PlantBiology) (s : PlantStructure)
    (g : Genome) (from_pos : VoxelPos) (w : VoxelWorld) (rng : Rng) :
    (try_grow_upward plant_id b s g from_pos w rng).1.is_alive = b.is_alive := by
  unfold try_grow_upward
  dsimp only [Rng.next, grow_voxel]
  split
  · split
    · rw [add_leaf_alive]
    · rfl
  · rfl

/-- `try_grow_branch` never touches the alive flag. -/
lemma try_grow_branch_alive (plant_id : Nat) (b : PlantBiology) (s : PlantStructure)
    (g : Genome) (from_pos : VoxelPos) (w : VoxelWorld) (rng : Rng) :
    (try_grow_branch plant_id b s g from_pos w rng).1.is_alive = b.is_alive := by
  unfold try_grow_branch
  dsimp only [Rng.next, grow_voxel]
  split
  · split
    · split
      · rw [add_leaf_alive]
      · rfl
    · rfl
  · rfl

/-- `try_grow_root` never touches the alive flag. -/
lemma try_grow_root_alive (plant_id : Nat) (b : PlantBiology) (s : PlantStructure)
    (g : Genome) (w : VoxelWorld) :
    (try_grow_root plant_id b s g w).1.is_alive = b.is_alive := by
  unfold try_grow_root
  dsimp only [grow_voxel]
  split
  · rfl
  · split
    · rfl
    · rfl

/-- The branch-or-upward attempt never touches the alive flag. -/
lemma growth_attempt_alive (plant_id : Nat) (b : PlantBiology) (s : PlantStructure)
    (g : Genome) (w : VoxelWorld) (rng : Rng) :
    (growth_attempt plant_id b s g w rng).1.is_alive = b.is_alive := by
  unfold growth_attempt
  dsimp only [Rng.next]
  split
  · split
    · rw [try_grow_branch_alive]
    · rfl
  · split
    · rw [try_grow_upward_alive]
    · rfl

/-- The growth system never changes the alive flag of any plant. -/
lemma plant_growth_system_alive (plant_id : Nat) (b : PlantBiology) (s : PlantStructure)
    (g : Genome) (t : GrowthTimer) (w : VoxelWorld) (rng : Rng) (dt : ℚ) :
    (plant_growth_system plant_id b s g t w rng dt).1.is_alive = b.is_alive := by
  unfold plant_growth_system
  split
  · rfl
  · dsimp only [Rng.next]
    split
    · rfl
    · split
      · rfl
      · split
        · rfl
        · split
          · rw [try_grow_root_alive, growth_attempt_alive]
          · rw [growth_attempt_alive]

/-- Positions not in the folded list are untouched by a chain of
`updateVoxel`s. -/
lemma foldl_updateVoxel_get_not_mem (f : Voxel → Voxel) (L : List VoxelPos)
    (w : VoxelWorld) (p : VoxelPos) (hp : p ∉ L) :
    (L.foldl (fun acc q => acc.updateVoxel q f) w).get p = w.get p := by
  induction L generalizing w with
  | nil => rfl
  | cons q T ih =>
      have hpq : p ≠ q := by
        intro h
        exact hp (h ▸ List.mem_cons_self q T)
      have hpT : p ∉ T := fun h => hp (List.mem_cons_of_mem q h)
      simp only [List.foldl_cons]
      rw [ih _ hpT]
      exact get_updateVoxel_ne f (Ne.symm hpq)

/-- Positions in the folded list read back their original voxel mapped
through an idempotent per-voxel update. -/
lemma foldl_updateVoxel_get_mem (f : Voxel → Voxel) (hf : ∀ v, f (f v) = f v)
    (L : List VoxelPos) (w : VoxelWorld) (p : VoxelPos) (hp : p ∈ L) :
    (L.foldl (fun acc q => acc.updateVoxel q f) w).get p = (w.get p).map f := by
  induction L generalizing w with
  | nil => cases hp
  | cons q T ih =>
      simp only [List.foldl_cons]
      by_cases hpq : p = q
      · subst hpq
        by_cases hmem : p ∈ T
        · rw [ih _ hmem, get_updateVoxel_self]
          cases w.get p <;> simp [hf]
        · rw [foldl_updateVoxel_get_not_mem f T _ p hmem, get_updateVoxel_self]
      · have hmem : p ∈ T := by
          rcases List.mem_cons.mp hp with h | h
          · exact absurd h hpq
          · exact h
        rw [ih _ hmem, get_updateVoxel_ne f (Ne.symm hpq)]

/-- C6: once a plant is dead, the metabolic, aging, growth and
reproduction systems all leave its biology, structure, the world, the
generator and the species counter untouched; the cleanup pass despawns
it, reverts exactly the positions of its `voxel_positions` to soil
(preserving their environment) and touches no other cell. -/
theorem c6_dead_plants_frozen (plant_id next_id : Nat) (b : PlantBiology)
    (s : PlantStructure) (g : Genome) (lin : GeneticLineage) (t : GrowthTimer)
    (w : VoxelWorld) (rng : Rng) (dt : ℚ) (hdead : b.is_alive = false) :
    photosynthesis_system b s g w dt = b ∧
    resource_absorption_system b s w dt = (b, w) ∧
    maintenance_cost_system b s dt = b ∧
    aging_system b dt = b ∧
    plant_growth_system plant_id b s g t w rng dt = (b, s, t, w, rng) ∧
    reproduction_system plant_id b s g lin w next_id rng = (b, next_id, rng, []) ∧
    (cleanup_dead_plants_system b s w).2 = true ∧
    (∀ p ∈ s.voxel_positions,
      (cleanup_dead_plants_system b s w).1.get p
        = (w.get p).map (fun v => { v with voxel_type := VoxelType.soil })) ∧
    (∀ p, p ∉ s.voxel_positions → (cleanup_dead_plants_system b s w).1.get p = w.get p) := by
  refine ⟨?_, ?_, ?_, ?_, ?_, ?_, ?_, ?_, ?_⟩
  · simp [photosynthesis_system, hdead]
  · simp [resource_absorption_system, hdead]
  · simp [maintenance_cost_system, hdead]
  · simp [aging_system, hdead]
  · simp [plant_growth_system, hdead]
  · simp [reproduction_system, hdead]
  · simp [cleanup_dead_plants_system, hdead]
  · intro p hp
    unfold cleanup_dead_plants_system
    rw [hdead]
    simp only [Bool.not_false, if_pos rfl]
    exact foldl_updateVoxel_get_mem
      (fun v => { v with voxel_type := VoxelType.soil }) (fun v => rfl) _ w p hp
  · intro p hp
    unfold cleanup_dead_plants_system
    rw [hdead]
    simp only [Bool.not_false, if_pos rfl]
    exact foldl_updateVoxel_get_not_mem
      (fun v => { v with voxel_type := VoxelType.soil }) _ w p hp

/-- C6 (witness): the concrete dead plant `deadPlantBio`/`deadStruct` on
`deadWorld` is untouched by maintenance and aging, is despawned by
cleanup, its claimed plant-material cell (0,2,0) reverts to soil with
its environment kept, and the air cell (0,3,0) outside its structure is
untouched. -/
theorem c6_dead_plants_frozen_witness :
    maintenance_cost_system deadPlantBio deadStruct 1 = deadPlantBio ∧
    aging_system deadPlantBio 1 = deadPlantBio ∧
    (cleanup_dead_plants_system deadPlantBio deadStruct deadWorld).2 = true ∧
    (cleanup_dead_plants_system deadPlantBio deadStruct deadWorld).1.get ⟨0, 2, 0⟩
      = some ⟨.soil, VoxelEnvironment.default⟩ ∧
    (cleanup_dead_plants_system deadPlantBio deadStruct deadWorld).1.get ⟨0, 3, 0⟩
      = some airVoxel := by
  have h := c6_dead_plants_frozen 7 10 deadPlantBio deadStruct (constGenome (1/2)) lin0
    GrowthTimer.default deadWorld c3Rng 1 rfl
  refine ⟨h.2.2.1, h.2.2.2.1, h.2.2.2.2.2.2.1, ?_, ?_⟩
  · have h8 := h.2.2.2.2.2.2.2.1 ⟨0, 2, 0⟩ (by decide)
    rw [h8]
    rfl
  · have h9 := h.2.2.2.2.2.2.2.2 ⟨0, 3, 0⟩ (by decide)
    rw [h9]
    rfl

/-- C5: on a living plant one maintenance pass deducts exactly
`voxel_count × BASE_MAINTENANCE_COST × dt` plus the per-voxel transport
surcharge `max(0, y - root.y) × 0.01 × dt`, and flips `alive` to false
exactly when the resulting energy is ≤ 0; a dead plant is untouched, the
flag is one-way (alive afterwards implies alive before), and no other
per-tick system ever writes the alive flag. -/
theorem c5_maintenance_death (plant_id next_id : Nat) (b : PlantBiology)
    (s : PlantStructure) (g : Genome) (lin : GeneticLineage) (t : GrowthTimer)
    (w : VoxelWorld) (rng : Rng) (dt : ℚ) :
    (b.is_alive = true →
      (maintenance_cost_system b s dt).energy
        = b.energy - ((s.voxel_positions.length : ℚ) * BASE_MAINTENANCE_COST * dt
            + (s.voxel_positions.map
                (fun p => ((max (p.y - s.root_position.y) 0 : Int) : ℚ) * (1/100) * dt)).sum) ∧
      ((maintenance_cost_system b s dt).is_alive = false ↔
        (maintenance_cost_system b s dt).energy ≤ 0)) ∧
    (b.is_alive = false → maintenance_cost_system b s dt = b) ∧
    ((maintenance_cost_system b s dt).is_alive = true → b.is_alive = true) ∧
    (photosynthesis_system b s g w dt).is_alive = b.is_alive ∧
    (resource_absorption_system b s w dt).1.is_alive = b.is_alive ∧
    (aging_system b dt).is_alive = b.is_alive ∧
    (plant_growth_system plant_id b s g t w rng dt).1.is_alive = b.is_alive ∧
    (reproduction_system plant_id b s g lin w next_id rng).1.is_alive = b.is_alive := by
  have hmain : b.is_alive = true →
      (maintenance_cost_system b s dt).energy
        = b.energy - ((s.voxel_positions.length : ℚ) * BASE_MAINTENANCE_COST * dt
            + (s.voxel_positions.map
                (fun p => ((max (p.y - s.root_position.y) 0 : Int) : ℚ) * (1/100) * dt)).sum) ∧
      ((maintenance_cost_system b s dt).is_alive = false ↔
        (maintenance_cost_system b s dt).energy ≤ 0) := by
    intro halive
    unfold maintenance_cost_system
    rw [halive]
    simp only [Bool.not_true, Bool.false_eq_true, if_false]
    rw [foldl_add_eq_sum (fun p => ((max (p.y - s.root_position.y) 0 : Int) : ℚ) * (1/100) * dt)
      s.voxel_positions 0, zero_add]
    constructor
    · split <;> rfl
    · constructor
      · intro hflag
        by_contra hgt
        rw [if_neg ?hg] at hflag
        · exact absurd hflag (by simp)
        case hg =>
          intro hle
          exact hgt (by
            rw [if_pos hle]
            exact hle)
      · intro hle
        by_cases hc : b.energy - ((s.voxel_positions.length : ℚ) * BASE_MAINTENANCE_COST * dt
            + (List.map (fun p => ((max (p.y - s.root_position.y) 0 : Int) : ℚ) * (1/100) * dt)
                s.voxel_positions).sum) ≤ 0
        · rw [if_pos hc]
        · rw [if_neg hc] at hle ⊢
          exact absurd hle hc
  refine ⟨hmain, ?_, ?_, ?_, ?_, ?_, ?_, ?_⟩
  · intro hdead
    simp [maintenance_cost_system, hdead]
  · intro halive'
    by_cases hb : b.is_alive = true
    · exact hb
    · have hdead : b.is_alive = false := by
        cases hbv : b.is_alive
        · rfl
        · exact absurd hbv hb
      rw [show maintenance_cost_system b s dt = b from by simp [maintenance_cost_system, hdead]]
        at halive'
      rw [halive'] at hdead
      exact absurd hdead (by simp)
  · unfold photosynthesis_system
    split <;> rfl
  · unfold resource_absorption_system
    split <;> rfl
  · unfold aging_system
    split <;> rfl
  · exact plant_growth_system_alive plant_id b s g t w rng dt
  · unfold reproduction_system
    split
    · rfl
    · split
      · split
        · rfl
        · rfl
      · rfl

/-- C5 (witness): a live default plant occupying (0,1,0) and (0,2,0)
with root (0,1,0) pays 2 × 0.3 × 1 + (0 + 1 × 0.01 × 1) = 0.61 energy
for one maintenance pass with dt = 1, ending at 49.39 energy and still
alive. -/
theorem c5_maintenance_death_witness :
    (maintenance_cost_system aliveBio deadStruct 1).energy = 4939/100 ∧
    (maintenance_cost_system aliveBio deadStruct 1).is_alive = true := by
  have h := (c5_maintenance_death 7 10 aliveBio deadStruct (constGenome (1/2)) lin0
    GrowthTimer.default deadWorld c3Rng 1).1 rfl
  have he : (maintenance_cost_system aliveBio deadStruct 1).energy = 4939/100 := by
    rw [h.1]
    norm_num [deadStruct, aliveBio, PlantBiology.default, BASE_MAINTENANCE_COST]
  refine ⟨he, ?_⟩
  have hne : ¬ (maintenance_cost_system aliveBio deadStruct 1).is_alive = false := by
    intro hf
    have := h.2.mp hf
    rw [he] at this
    norm_num at this
  cases hv : (maintenance_cost_system aliveBio deadStruct 1).is_alive
  · exact absurd hv hne
  · rfl

/-- C1: the tick invariant fails at spawn. (0,1,0) is a valid seed site
of `columnWorld` (soil with air above); `spawn_plant` — which takes no
world and writes nothing into the grid — creates a living plant whose
`voxel_positions` already contains the root, yet the grid cell at the
root is still soil and not plant material tagged with the plant's id. -/
theorem c1_spawn_root_not_claimed :
    is_valid_seed_position ⟨0, 1, 0⟩ columnWorld = true ∧
    (spawn_plant ⟨0, 1, 0⟩ (constGenome (1/2)) 1 (some 3) 4).1.is_alive = true ∧
    (spawn_plant ⟨0, 1, 0⟩ (constGenome (1/2)) 1 (some 3) 4).2.1.root_position
      ∈ (spawn_plant ⟨0, 1, 0⟩ (constGenome (1/2)) 1 (some 3) 4).2.1.voxel_positions ∧
    (columnWorld.get ⟨0, 1, 0⟩).map (fun v => v.voxel_type) = some VoxelType.soil ∧
    (columnWorld.get ⟨0, 1, 0⟩).map (fun v => v.voxel_type.is_plant) = some false := by
  refine ⟨by decide, rfl, by decide, by decide, by decide⟩

/-- C2: a growth attempt through `can_grow_at` indeed requires an
in-bounds air cell, and `grow_voxel` deducts `BASE_GROWTH_COST`, appends
the target to `voxel_positions` and writes plant material tagged with
the plant id — but no species id: the source constructs
`VoxelType::PlantMaterial` without the `species_id` field required by
its declaration (embedded here as 0), so the written cell does not carry
the growing plant's species (5 in this instance). -/
theorem c2_grow_voxel_species_missing :
    can_grow_at ⟨0, 2, 0⟩ columnWorld = true ∧
    can_grow_at ⟨0, 1, 0⟩ columnWorld = false ∧
    can_grow_at ⟨0, 4, 0⟩ columnWorld = false ∧
    (grow_voxel 7 ⟨0, 2, 0⟩ PlantBiology.default (PlantStructure.new ⟨0, 1, 0⟩)
        columnWorld).1.energy = PlantBiology.default.energy - BASE_GROWTH_COST ∧
    (grow_voxel 7 ⟨0, 2, 0⟩ PlantBiology.default (PlantStructure.new ⟨0, 1, 0⟩)
        columnWorld).2.1.voxel_positions = [⟨0, 1, 0⟩, ⟨0, 2, 0⟩] ∧
    ((grow_voxel 7 ⟨0, 2, 0⟩ PlantBiology.default (PlantStructure.new ⟨0, 1, 0⟩)
        columnWorld).2.2.get ⟨0, 2, 0⟩).map (fun v => v.voxel_type)
      = some (VoxelType.plantMaterial 7 0) ∧
    ((grow_voxel 7 ⟨0, 2, 0⟩ PlantBiology.default (PlantStructure.new ⟨0, 1, 0⟩)
        columnWorld).2.2.get ⟨0, 2, 0⟩).map (fun v => v.voxel_type)
      ≠ some (VoxelType.plantMaterial 7 5) := by
  refine ⟨by decide, by decide, by decide, rfl, by decide, by decide, by decide⟩

/-! ## Range-invariant lemmas (C9) -/

/-- Clamping into [0,1] lands in [0,1]. -/
lemma geneOk_clamp (x : ℚ) : geneOk ⟨clampQ x 0 1⟩ := by
  unfold geneOk clampQ
  constructor
  · exact le_min (le_max_right x 0) (by norm_num)
  · exact min_le_right _ _

/-- `Gene::mutate` keeps a gene inside [0,1]. -/
lemma geneOk_mutate (g : Gene) (r : Rng) (hg : geneOk g) : geneOk (g.mutate r).1 := by
  unfold Gene.mutate
  dsimp only [Rng.next]
  split
  · exact geneOk_clamp _
  · exact hg

/-- `Genome::reproduce` keeps every gene inside [0,1]. -/
lemma genomeInv_reproduce (g : Genome) (r : Rng) (hg : GenomeInv g) :
    GenomeInv (g.reproduce r).1 := by
  obtain ⟨h1, h2, h3, h4, h5, h6, h7, h8, h9⟩ := hg
  unfold Genome.reproduce
  dsimp only
  refine ⟨geneOk_mutate _ _ h1, geneOk_mutate _ _ h2, geneOk_mutate _ _ h3,
    geneOk_mutate _ _ h4, geneOk_mutate _ _ h5, geneOk_mutate _ _ h6,
    geneOk_mutate _ _ h7, ?_, geneOk_mutate _ _ h9⟩
  dsimp only [Rng.next]
  split
  · exact geneOk_mutate _ _ h8
  · exact h8

/-- A voxel fetched by `get` is one of the stored voxels. -/
lemma get_mem {w : VoxelWorld} {p : VoxelPos} {v : Voxel} (h : w.get p = some v) :
    v ∈ w.voxels := by
  unfold VoxelWorld.get at h
  by_cases hb : w.is_in_bounds p = true
  · rw [if_pos hb] at h
    obtain ⟨hlt, he⟩ := List.getElem?_eq_some.mp h
    exact he ▸ List.getElem_mem hlt
  · rw [if_neg hb] at h
    cases h

/-- `updateVoxel` preserves the world range invariant provided the
update keeps the fetched voxel in range. -/
lemma worldInv_updateVoxel {w : VoxelWorld} {p : VoxelPos} {f : Voxel → Voxel}
    (hw : WorldInv w) (hf : ∀ v, w.get p = some v → voxelOk (f v)) :
    WorldInv (w.updateVoxel p f) := by
  unfold VoxelWorld.updateVoxel
  cases hv : w.get p with
  | none => exact hw
  | some v =>
      intro u hu
      rcases List.mem_or_eq_of_mem_set hu with h | h
      · exact hw u h
      · exact h ▸ hf v hv

/-- Soil regeneration keeps any in-range voxel in range. -/
lemma voxelOk_regen (v : Voxel) (hv : voxelOk v) : voxelOk (regenVoxel v) := by
  unfold regenVoxel
  cases ht : v.voxel_type with
  | soil =>
      obtain ⟨hn0, hn1, hw0, hw1⟩ := hv ht
      intro _
      refine ⟨?_, ?_, ?_, ?_⟩
      · exact le_min (by unfold NUTRIENT_REGEN_RATE; linarith) (by unfold SOIL_NUTRIENT_MAX; norm_num)
      · exact min_le_right _ _
      · exact le_min (by unfold WATER_REGEN_RATE; linarith) (by unfold SOIL_WATER_MAX; norm_num)
      · exact min_le_right _ _
  | air =>
      intro h
      exact hv h
  | plantMaterial a b =>
      intro h
      exact hv h

/-- The regeneration pass preserves the world range invariant. -/
lemma worldInv_regen (w : VoxelWorld) (hw : WorldInv w) :
    WorldInv (regenerate_resources_system w) := by
  unfold regenerate_resources_system
  generalize w.iter_positions = L
  induction L generalizing w with
  | nil => exact hw
  | cons p T ih =>
      simp only [List.foldl_cons]
      exact ih _ (worldInv_updateVoxel hw (fun v hv => voxelOk_regen v (hw v (get_mem hv))))

/-- One root absorption step keeps the world in range when `dt ≥ 0`. -/
lemma worldInv_absorbAt (w : VoxelWorld) (p : VoxelPos) (dt : ℚ) (hdt : 0 ≤ dt)
    (hw : WorldInv w) : WorldInv (absorbAt w p dt).1 := by
  unfold absorbAt
  cases hv : w.get p with
  | none => exact hw
  | some voxel =>
      dsimp only
      apply worldInv_updateVoxel hw
      intro v hv'
      have hvv : v = voxel := by
        rw [hv] at hv'
        exact (Option.some_inj.mp hv').symm
      subst hvv
      intro htype
      dsimp only at htype ⊢
      obtain ⟨hn0, hn1, hw0, hw1⟩ := hw v (get_mem hv') htype
      have hrate : 0 ≤ ROOT_ABSORPTION_RATE * dt := by
        unfold ROOT_ABSORPTION_RATE
        linarith
      refine ⟨?_, ?_, ?_, ?_⟩
      · have : min (ROOT_ABSORPTION_RATE * dt) v.environment.nutrients
            ≤ v.environment.nutrients := min_le_right _ _
        linarith
      · have : 0 ≤ min (ROOT_ABSORPTION_RATE * dt) v.environment.nutrients :=
          le_min hrate hn0
        linarith
      · have : min (ROOT_ABSORPTION_RATE * dt) v.environment.water
            ≤ v.environment.water := min_le_right _ _
        linarith
      · have : 0 ≤ min (ROOT_ABSORPTION_RATE * dt) v.environment.water :=
          le_min hrate hw0
        linarith

/-- A plant's full absorption pass preserves the world range invariant
when `dt ≥ 0`. -/
lemma worldInv_absorption (b : PlantBiology) (s : PlantStructure) (w : VoxelWorld)
    (dt : ℚ) (hdt : 0 ≤ dt) (hw : WorldInv w) :
    WorldInv (resource_absorption_system b s w dt).2 := by
  unfold resource_absorption_system
  split
  · exact hw
  · dsimp only
    have core : ∀ (L : List VoxelPos) (acc : VoxelWorld × ℚ × ℚ), WorldInv acc.1 →
        WorldInv (L.foldl
          (fun acc root_pos =>
            ((absorbAt acc.1 root_pos dt).1,
              acc.2.1 + (absorbAt acc.1 root_pos dt).2.1,
              acc.2.2 + (absorbAt acc.1 root_pos dt).2.2)) acc).1 := by
      intro L
      induction L with
      | nil => intro acc h; exact h
      | cons p T ih =>
          intro acc h
          simp only [List.foldl_cons]
          exact ih _ (worldInv_absorbAt _ p dt hdt h)
    exact core s.root_positions (w, 0, 0) hw

/-- C9: after any finite sequence of genome mutations, soil
regeneration passes and root absorption passes (with nonnegative time
deltas), every gene value stays in [0,1] and every soil voxel's
nutrients and water stay in [0,100]. -/
theorem c9_ranges_invariant (steps : List EvoStep) (g : Genome) (w : VoxelWorld)
    (hg : GenomeInv g) (hw : WorldInv w) (hdt : ∀ st ∈ steps, st.nonnegDt) :
    GenomeInv (applyEvoSteps steps (g, w)).1 ∧ WorldInv (applyEvoSteps steps (g, w)).2 := by
  induction steps generalizing g w with
  | nil => exact ⟨hg, hw⟩
  | cons st T ih =>
      have hst := hdt st (List.mem_cons_self st T)
      have hT : ∀ st' ∈ T, st'.nonnegDt := fun st' h => hdt st' (List.mem_cons_of_mem st h)
      show GenomeInv (applyEvoSteps T (applyEvoStep st (g, w))).1 ∧
        WorldInv (applyEvoSteps T (applyEvoStep st (g, w))).2
      cases st with
      | mutation r =>
          exact ih _ _ (genomeInv_reproduce g r hg) hw hT
      | regen =>
          exact ih _ _ hg (worldInv_regen w hw) hT
      | absorb b s dt =>
          exact ih _ _ hg (worldInv_absorption b s w dt hst hw) hT

/-- C9 (witness): a concrete three-step run — one mutation, one
regeneration pass and one absorption pass with dt = 1 — starting from
the all-1/2 genome and `columnWorld` keeps every gene in [0,1] and every
soil voxel's resources in [0,100]. -/
theorem c9_ranges_invariant_witness :
    GenomeInv (applyEvoSteps
      [EvoStep.mutation c3Rng, EvoStep.regen, EvoStep.absorb aliveBio deadStruct 1]
      (constGenome (1/2), columnWorld)).1 ∧
    WorldInv (applyEvoSteps
      [EvoStep.mutation c3Rng, EvoStep.regen, EvoStep.absorb aliveBio deadStruct 1]
      (constGenome (1/2), columnWorld)).2 := by
  apply c9_ranges_invariant
  · refine ⟨?_, ?_, ?_, ?_, ?_, ?_, ?_, ?_, ?_⟩ <;> constructor <;> norm_num [constGenome]
  · intro v hv
    simp only [columnWorld, List.mem_cons, List.not_mem_nil, or_false] at hv
    rcases hv with h | h | h | h <;> subst h <;> intro ht
    · exact ⟨by norm_num [soilVoxel, VoxelEnvironment.default, SOIL_NUTRIENT_MAX, SOIL_WATER_MAX],
        by norm_num [soilVoxel, VoxelEnvironment.default, SOIL_NUTRIENT_MAX],
        by norm_num [soilVoxel, VoxelEnvironment.default, SOIL_NUTRIENT_MAX, SOIL_WATER_MAX],
        by norm_num [soilVoxel, VoxelEnvironment.default, SOIL_WATER_MAX]⟩
    · exact ⟨by norm_num [soilVoxel, VoxelEnvironment.default, SOIL_NUTRIENT_MAX, SOIL_WATER_MAX],
        by norm_num [soilVoxel, VoxelEnvironment.default, SOIL_NUTRIENT_MAX],
        by norm_num [soilVoxel, VoxelEnvironment.default, SOIL_NUTRIENT_MAX, SOIL_WATER_MAX],
        by norm_num [soilVoxel, VoxelEnvironment.default, SOIL_WATER_MAX]⟩
    · exact absurd ht (by simp [airVoxel, Voxel.default])
    · exact absurd ht (by simp [airVoxel, Voxel.default])
  · intro st hst
    simp only [List.mem_cons, List.not_mem_nil, or_false] at hst
    rcases hst with h | h | h <;> subst h
    · trivial
    · trivial
    · exact zero_le_one


/-! ## Light propagation lemmas (C4) -/

/-- The light write keeps the material type. -/
lemma lightWrite_type (light : ℚ) (v : Voxel) :
    (lightWrite light v).voxel_type = v.voxel_type := rfl

/-- A type-preserving per-voxel update never changes the material map of
any cell. -/
lemma map_type_get_updateVoxel (w : VoxelWorld) (q : VoxelPos) (f : Voxel → Voxel)
    (hf : ∀ v, (f v).voxel_type = v.voxel_type) (p : VoxelPos) :
    ((w.updateVoxel q f).get p).map (fun v => v.voxel_type)
      = (w.get p).map (fun v => v.voxel_type) := by
  by_cases hpq : q = p
  · subst hpq
    rw [get_updateVoxel_self]
    cases w.get q <;> simp [hf]
  · rw [get_updateVoxel_ne f hpq]

/-- A column scan preserves the dimensions and the storage length. -/
lemma lightScanCol_shape (x z : Int) (ys : List Int) (light : ℚ) (w : VoxelWorld) :
    (lightScanCol x z ys light w).width = w.width ∧
    (lightScanCol x z ys light w).height = w.height ∧
    (lightScanCol x z ys light w).depth = w.depth ∧
    (lightScanCol x z ys light w).voxels.length = w.voxels.length := by
  induction ys generalizing light w with
  | nil => exact ⟨rfl, rfl, rfl, rfl⟩
  | cons y ys ih =>
      simp only [lightScanCol]
      cases hv : w.get ⟨x, y, z⟩ with
      | none => exact ih light w
      | some v =>
          obtain ⟨e1, e2, e3, e4⟩ := ih (attenuate v.voxel_type light)
            (w.updateVoxel ⟨x, y, z⟩ (fun u =>
              { u with environment := { u.environment with light_level := light } }))
          obtain ⟨u1, u2, u3, u4⟩ := updateVoxel_shape w ⟨x, y, z⟩ (fun u =>
            { u with environment := { u.environment with light_level := light } })
          exact ⟨e1.trans u1, e2.trans u2, e3.trans u3, e4.trans u4⟩

/-- A column scan never changes any cell's material map. -/
lemma map_type_lightScanCol (x z : Int) (ys : List Int) (light : ℚ) (w : VoxelWorld)
    (p : VoxelPos) :
    ((lightScanCol x z ys light w).get p).map (fun v => v.voxel_type)
      = (w.get p).map (fun v => v.voxel_type) := by
  induction ys generalizing light w with
  | nil => rfl
  | cons y ys ih =>
      simp only [lightScanCol]
      cases hv : w.get ⟨x, y, z⟩ with
      | none => exact ih light w
      | some v =>
          rw [ih]
          exact map_type_get_updateVoxel w ⟨x, y, z⟩
            (fun u => { u with environment := { u.environment with light_level := light } })
            (fun u => rfl) p

/-- A column scan does not touch cells of other columns. -/
lemma lightScanCol_get_other (x z : Int) (ys : List Int) (light : ℚ) (w : VoxelWorld)
    (q : VoxelPos) (hq : q.x ≠ x ∨ q.z ≠ z) :
    (lightScanCol x z ys light w).get q = w.get q := by
  induction ys generalizing light w with
  | nil => rfl
  | cons y ys ih =>
      simp only [lightScanCol]
      cases hv : w.get ⟨x, y, z⟩ with
      | none => exact ih light w
      | some v =>
          rw [ih]
          apply get_updateVoxel_ne
          intro he
          rcases hq with h | h
          · exact h (by rw [← he])
          · exact h (by rw [← he])

/-- A column scan does not touch the cells of its own column whose y is
not in the scan list. -/
lemma lightScanCol_get_not_mem (x z : Int) (ys : List Int) (light : ℚ) (w : VoxelWorld)
    (y : Int) (hy : y ∉ ys) :
    (lightScanCol x z ys light w).get ⟨x, y, z⟩ = w.get ⟨x, y, z⟩ := by
  induction ys generalizing light w with
  | nil => rfl
  | cons y' ys ih =>
      have hyy : y ≠ y' := fun h => hy (h ▸ List.mem_cons_self y' ys)
      have hys : y ∉ ys := fun h => hy (List.mem_cons_of_mem y' h)
      simp only [lightScanCol]
      cases hv : w.get ⟨x, y', z⟩ with
      | none => exact ih light w hys
      | some v =>
          rw [ih _ _ hys]
          apply get_updateVoxel_ne
          intro he
          exact hyy (congrArg VoxelPos.y he).symm

/-- The running-light value depends only on the material map of the
column. -/
lemma runningLight_congr (w w' : VoxelWorld) (x z : Int)
    (h : ∀ y', (w.get ⟨x, y', z⟩).map (fun v => v.voxel_type)
      = (w'.get ⟨x, y', z⟩).map (fun v => v.voxel_type)) :
    ∀ (ys : List Int) (l : ℚ) (y : Int),
      runningLight w x z ys l y = runningLight w' x z ys l y := by
  intro ys
  induction ys with
  | nil => intro l y; rfl
  | cons y' ys ih =>
      intro l y
      simp only [runningLight]
      by_cases hy : y' = y
      · rw [if_pos hy, if_pos hy]
      · rw [if_neg hy, if_neg hy]
        have hty := h y'
        cases hv : w.get ⟨x, y', z⟩ with
        | none =>
            rw [hv] at hty
            cases hv' : w'.get ⟨x, y', z⟩ with
            | none => exact ih l y
            | some v' =>
                rw [hv'] at hty
                simp only [Option.map_none', Option.map_some'] at hty
                exact Option.noConfusion hty
        | some v =>
            rw [hv] at hty
            cases hv' : w'.get ⟨x, y', z⟩ with
            | none =>
                rw [hv'] at hty
                simp only [Option.map_none', Option.map_some'] at hty
                exact Option.noConfusion hty
            | some v' =>
                rw [hv'] at hty
                simp only [Option.map_some', Option.some.injEq] at hty
                dsimp only
                rw [hty]
                exact ih _ y

/-- Column characterization: a cell whose y occurs in a duplicate-free
scan list reads back its original voxel with `light_level` set to the
running light carried to it. -/
lemma lightScanCol_get_mem (x z y : Int) (ys : List Int) :
    ∀ (light : ℚ) (w : VoxelWorld), ys.Nodup → y ∈ ys →
      (lightScanCol x z ys light w).get ⟨x, y, z⟩
        = (w.get ⟨x, y, z⟩).map (lightWrite (runningLight w x z ys light y)) := by
  induction ys with
  | nil =>
      intro light w _ hy
      cases hy
  | cons y' ys ih =>
      intro light w hnd hy
      simp only [lightScanCol, runningLight]
      by_cases hyy : y' = y
      · subst hyy
        have hnot : y' ∉ ys := (List.nodup_cons.mp hnd).1
        rw [if_pos rfl]
        cases hv : w.get ⟨x, y', z⟩ with
        | none =>
            rw [lightScanCol_get_not_mem x z ys light w y' hnot, hv]
            rfl
        | some v =>
            rw [lightScanCol_get_not_mem x z ys _ _ y' hnot, get_updateVoxel_self, hv]
            rfl
      · have hys : y ∈ ys := by
          rcases List.mem_cons.mp hy with h | h
          · exact absurd h.symm hyy
          · exact h
        have hnd' : ys.Nodup := (List.nodup_cons.mp hnd).2
        have hpne : (⟨x, y', z⟩ : VoxelPos) ≠ ⟨x, y, z⟩ := by
          intro he
          exact hyy (congrArg VoxelPos.y he)
        rw [if_neg hyy]
        cases hv : w.get ⟨x, y', z⟩ with
        | none => exact ih light w hnd' hys
        | some v =>
            rw [ih (attenuate v.voxel_type light) _ hnd' hys, get_updateVoxel_ne _ hpne,
              runningLight_congr
                (w.updateVoxel ⟨x, y', z⟩ (fun u =>
                  { u with environment := { u.environment with light_level := light } })) w x z
                (fun y'' => map_type_get_updateVoxel w ⟨x, y', z⟩
                  (fun u => { u with environment := { u.environment with light_level := light } })
                  (fun u => rfl) ⟨x, y'', z⟩) ys (attenuate v.voxel_type light) y]

/-- The descending scan list has no duplicates. -/
lemma descYs_nodup (h : Nat) : (descYs h).Nodup := by
  unfold descYs
  refine List.Nodup.map (fun a b hab => by exact_mod_cast hab) ?_
  exact List.nodup_reverse.mpr (List.nodup_range h)

/-- Membership in the descending scan list. -/
lemma mem_descYs {h : Nat} {y : Int} (h0 : 0 ≤ y) (hlt : y.toNat < h) : y ∈ descYs h := by
  simp only [descYs, List.mem_map, List.mem_reverse, List.mem_range]
  exact ⟨y.toNat, hlt, Int.toNat_of_nonneg h0⟩

/-- Scans of foreign columns leave a cell untouched. -/
lemma cols_fold_get_other (p : VoxelPos) :
    ∀ (L : List (Nat × Nat)) (w : VoxelWorld),
      (∀ xz ∈ L, ((xz.1 : Int) ≠ p.x ∨ (xz.2 : Int) ≠ p.z)) →
      (L.foldl (fun acc xz =>
        lightScanCol (xz.1 : Int) (xz.2 : Int) (descYs acc.height) SUNLIGHT_MAX acc) w).get p
        = w.get p := by
  intro L
  induction L with
  | nil => intro w _; rfl
  | cons xz T ih =>
      intro w hL
      simp only [List.foldl_cons]
      rw [ih _ (fun xz' h => hL xz' (List.mem_cons_of_mem xz h))]
      apply lightScanCol_get_other
      rcases hL xz (List.mem_cons_self xz T) with h | h
      · exact Or.inl (fun he => h he.symm)
      · exact Or.inr (fun he => h he.symm)

/-- Components of distinct pairs differ as integers. -/
lemma pair_ne_cast {xz : Nat × Nat} {a b : Nat} (hne : xz ≠ (a, b)) :
    (xz.1 : Int) ≠ (a : Int) ∨ (xz.2 : Int) ≠ (b : Int) := by
  by_cases h1 : xz.1 = a
  · refine Or.inr ?_
    have h2 : xz.2 ≠ b := by
      intro h2
      exact hne (Prod.ext h1 h2)
    intro hc
    exact h2 (by exact_mod_cast hc)
  · refine Or.inl ?_
    intro hc
    exact h1 (by exact_mod_cast hc)

/-- Whole-grid fold characterization: the scan of the cell's own column
sets its light level to the running light computed on the original
world, and no other column's scan interferes. -/
lemma cols_fold_get_mem (a b : Nat) (y : Int) :
    ∀ (L : List (Nat × Nat)) (w : VoxelWorld), L.Nodup → (a, b) ∈ L →
      y ∈ descYs w.height →
      (L.foldl (fun acc xz =>
        lightScanCol (xz.1 : Int) (xz.2 : Int) (descYs acc.height) SUNLIGHT_MAX acc) w).get
          ⟨(a : Int), y, (b : Int)⟩
        = (w.get ⟨(a : Int), y, (b : Int)⟩).map
            (lightWrite (runningLight w (a : Int) (b : Int) (descYs w.height) SUNLIGHT_MAX y)) := by
  intro L
  induction L with
  | nil =>
      intro w _ hmem _
      cases hmem
  | cons xz T ih =>
      intro w hnd hmem hy
      simp only [List.foldl_cons]
      by_cases hxz : xz = (a, b)
      · subst hxz
        have hnotT : (a, b) ∉ T := (List.nodup_cons.mp hnd).1
        rw [cols_fold_get_other _ T _ ?other]
        case other =>
          intro xz' hxz'
          have hne : xz' ≠ (a, b) := fun he => hnotT (he ▸ hxz')
          exact pair_ne_cast hne
        exact lightScanCol_get_mem ((a, b).1 : Int) ((a, b).2 : Int) y (descYs w.height)
          SUNLIGHT_MAX w (descYs_nodup _) hy
      · have hmemT : (a, b) ∈ T := by
          rcases List.mem_cons.mp hmem with h | h
          · exact absurd h.symm hxz
          · exact h
        have hndT : T.Nodup := (List.nodup_cons.mp hnd).2
        have hne := pair_ne_cast hxz
        have hcol : ∀ y'' : Int,
            (lightScanCol (xz.1 : Int) (xz.2 : Int) (descYs w.height) SUNLIGHT_MAX w).get
              ⟨(a : Int), y'', (b : Int)⟩ = w.get ⟨(a : Int), y'', (b : Int)⟩ := by
          intro y''
          apply lightScanCol_get_other
          rcases hne with h | h
          · exact Or.inl (fun he => h he.symm)
          · exact Or.inr (fun he => h he.symm)
        have hh : (lightScanCol (xz.1 : Int) (xz.2 : Int) (descYs w.height) SUNLIGHT_MAX w).height
            = w.height := (lightScanCol_shape _ _ _ _ _).2.1
        rw [ih _ hndT hmemT (by rw [hh]; exact hy), hcol y, hh,
          runningLight_congr _ w (a : Int) (b : Int)
            (fun y'' => by rw [hcol y''])]

/-- C4: the light update sets every in-bounds cell's `light_level` to
the running value carried from the top of its (x,z) column — starting at
`SUNLIGHT_MAX` and attenuated ×0.6 by each plant-material cell, ×0.1 by
each soil cell and not at all by air, with each cell written before its
own attenuation is applied — leaving the rest of the voxel unchanged. -/
theorem c4_light_update (w : VoxelWorld) (p : VoxelPos) (hb : w.is_in_bounds p = true) :
    (update_light_system w).get p
      = (w.get p).map
          (lightWrite (runningLight w p.x p.z (descYs w.height) SUNLIGHT_MAX p.y)) := by
  obtain ⟨hx0, hy0, hz0, hxw, hyh, hzd⟩ := (is_in_bounds_iff w p).mp hb
  have hpx : ((p.x.toNat : Nat) : Int) = p.x := Int.toNat_of_nonneg hx0
  have hpz : ((p.z.toNat : Nat) : Int) = p.z := Int.toNat_of_nonneg hz0
  have hnodup : ((List.range w.width).flatMap
      (fun x => (List.range w.depth).map (fun z => (x, z)))).Nodup :=
    List.Nodup.product (List.nodup_range w.width) (List.nodup_range w.depth)
  have hmem : (p.x.toNat, p.z.toNat) ∈ (List.range w.width).flatMap
      (fun x => (List.range w.depth).map (fun z => (x, z))) :=
    List.mem_product.mpr ⟨List.mem_range.mpr hxw, List.mem_range.mpr hzd⟩
  have hymem : p.y ∈ descYs w.height := mem_descYs hy0 hyh
  have h2 := cols_fold_get_mem p.x.toNat p.z.toNat p.y _ w hnodup hmem hymem
  rw [hpx, hpz] at h2
  unfold update_light_system
  exact h2

/-- C4 (witness): in `columnWorld` — a soil column of height 2 under two
air cells with no plant material — the top soil voxel at (0,1,0) ends
with `light_level` 100 (`SUNLIGHT_MAX`, air attenuates nothing) and the
soil voxel directly below it with 100 × 0.1 = 10. -/
theorem c4_light_update_witness :
    (update_light_system columnWorld).get ⟨0, 1, 0⟩
      = some ⟨VoxelType.soil, ⟨100, 100, 100⟩⟩ ∧
    (update_light_system columnWorld).get ⟨0, 0, 0⟩
      = some ⟨VoxelType.soil, ⟨10, 100, 100⟩⟩ := by
  constructor
  · rw [c4_light_update columnWorld ⟨0, 1, 0⟩ (by decide)]
    show Option.map (lightWrite SUNLIGHT_MAX) (some soilVoxel)
      = some ⟨VoxelType.soil, ⟨100, 100, 100⟩⟩
    norm_num [lightWrite, soilVoxel, VoxelEnvironment.default, SUNLIGHT_MAX,
      SOIL_NUTRIENT_MAX, SOIL_WATER_MAX]
  · rw [c4_light_update columnWorld ⟨0, 0, 0⟩ (by decide)]
    show Option.map (lightWrite (SUNLIGHT_MAX * (1/10))) (some soilVoxel)
      = some ⟨VoxelType.soil, ⟨10, 100, 100⟩⟩
    norm_num [lightWrite, soilVoxel, VoxelEnvironment.default, SUNLIGHT_MAX,
      SOIL_NUTRIENT_MAX, SOIL_WATER_MAX]
